import Mathlib

/-!
Shallow embedding of `src/submit/filters/tex_filters.py` (the autotex
compilation-log annotator) and proofs about it.

Python strings are modelled as `List Char`; the regular expressions used by
the source are modelled by a small backtracking engine (`RE`) that mirrors
Python `re` semantics for the constructs the source actually uses: literal
characters, `.` (any character except newline), `\s`, greedy `*` and `+`
over single-character classes, alternation, and the two `(.*)` capture
groups of the run-banner pattern.  Python exceptions (`KeyError` from
`last_run_for_engine[...]`, `ValueError` from `RUN_ORDER.index(...)`) are
modelled by `Option`: `none` means the call raised.
-/

namespace TexFilters

/-- Double-quote character (written via code point to keep literals simple). -/
def quoteChar : Char := Char.ofNat 34

/-- Single-quote character. -/
def aposChar : Char := Char.ofNat 39

/-- `html.escape(s)` acts independently on each character: it replaces
`&`, `<`, `>`, `"` and the single quote by their HTML entities. -/
def escChar (c : Char) : List Char :=
  if c = '&' then "&amp;".data
  else if c = '<' then "&lt;".data
  else if c = '>' then "&gt;".data
  else if c = quoteChar then "&quot;".data
  else if c = aposChar then "&#x27;".data
  else [c]

/-- `html.escape` with `quote=True` (the default), as used at the top of the
per-line loop of `compilation_log_display`. -/
def htmlEscape (s : List Char) : List Char := s.flatMap escChar

/-- Characters `str.splitlines` treats as line boundaries (ASCII plus the
two Unicode separators; `\r\n` is handled as a single boundary below). -/
def isLineBreak (c : Char) : Bool :=
  c = '\n' || c = '\r' || c = '\x0b' || c = '\x0c' ||
  c = '\x1c' || c = '\x1d' || c = '\x1e' || c = '\x85' ||
  c = Char.ofNat 8232 || c = Char.ofNat 8233

/-- Helper for `splitlines`: accumulates the current line (reversed). -/
def splitlinesAux : List Char → List Char → List (List Char)
  | [], acc => if acc.isEmpty then [] else [acc.reverse]
  | '\r' :: '\n' :: rest, acc => acc.reverse :: splitlinesAux rest []
  | c :: rest, acc =>
      if isLineBreak c then acc.reverse :: splitlinesAux rest []
      else splitlinesAux rest (c :: acc)

/-- Python `str.splitlines()`. -/
def splitlines (s : List Char) : List (List Char) := splitlinesAux s []

/-- Whitespace characters matched by Python's `\s` on ASCII text. -/
def isPyWs (c : Char) : Bool :=
  c = ' ' || c = '\t' || c = '\n' || c = '\r' || c = '\x0b' || c = '\x0c'

/-- Single-character classes appearing in the source's regexes. -/
inductive CharClass where
  | anyNN : CharClass
  | wsC : CharClass
  | litC : Char → CharClass
deriving DecidableEq, Repr

/-- Whether a character belongs to a class; `ci` is the `re.IGNORECASE`
flag (it only affects literal characters). -/
def ccTest (ci : Bool) : CharClass → Char → Bool
  | .anyNN, c => c ≠ '\n'
  | .wsC, c => isPyWs c
  | .litC d, c => if ci then c.toLower = d.toLower else c = d

/-- Regex AST covering the constructs used by `tex_filters.py`.
`starC` is a greedy `*` over a single-character class; `grpC n` is the
captured greedy `(.*)`-style group number `n` (only the run-banner pattern
captures anything). -/
inductive RE where
  | eps : RE
  | cls : CharClass → RE
  | cat : RE → RE → RE
  | alt : RE → RE → RE
  | starC : CharClass → RE
  | grpC : Nat → CharClass → RE
deriving Repr, DecidableEq

/-- Literal string regex. -/
def litRE (s : String) : RE := s.data.foldr (fun c r => RE.cat (RE.cls (.litC c)) r) RE.eps

/-- `.*` -/
def dotStar : RE := RE.starC .anyNN

/-- `\~+` -/
def tildes : RE := RE.cat (RE.cls (.litC '~')) (RE.starC (.litC '~'))

/-- `\s` -/
def wsRE : RE := RE.cls .wsC

/-- Captured groups of a match: groups 1 and 2 of the run-banner pattern. -/
structure Caps where
  g1 : Option (List Char)
  g2 : Option (List Char)
deriving DecidableEq, Repr

def Caps.empty : Caps := ⟨none, none⟩

def Caps.set (cp : Caps) (n : Nat) (v : List Char) : Caps :=
  if n = 1 then { cp with g1 := some v } else if n = 2 then { cp with g2 := some v } else cp

/-- Backtracking helper: try dropping `i` characters for `i = n, n-1, …, 0`
(longest first — greedy), feeding the remainder to the continuation. -/
def tryDrops {A : Type} (s : List Char) (cp : Caps)
    (k : List Char → Caps → Option A) : Nat → Option A
  | 0 => k s cp
  | n + 1 =>
      match k (s.drop (n + 1)) cp with
      | some r => some r
      | none => tryDrops s cp k n

/-- Like `tryDrops` but records the consumed prefix as capture group `n`. -/
def tryDropsCap {A : Type} (s : List Char) (cp : Caps) (g : Nat)
    (k : List Char → Caps → Option A) : Nat → Option A
  | 0 => k s (cp.set g [])
  | n + 1 =>
      match k (s.drop (n + 1)) (cp.set g (s.take (n + 1))) with
      | some r => some r
      | none => tryDropsCap s cp g k n

/-- Length of the maximal prefix of `s` whose characters satisfy the class. -/
def maxRun (ci : Bool) (c : CharClass) (s : List Char) : Nat :=
  (s.takeWhile (ccTest ci c)).length

/-- CPS backtracking matcher, anchored at the start of `s`.  Mirrors Python
`re` semantics: concatenation backtracks, alternation prefers the left
branch, starred classes are greedy. -/
def matchRE {A : Type} (ci : Bool) : RE → List Char → Caps → (List Char → Caps → Option A) → Option A
  | .eps, s, cp, k => k s cp
  | .cls _, [], _, _ => none
  | .cls c, x :: s, cp, k => if ccTest ci c x then k s cp else none
  | .cat a b, s, cp, k => matchRE ci a s cp (fun s' cp' => matchRE ci b s' cp' k)
  | .alt a b, s, cp, k =>
      match matchRE ci a s cp k with
      | some r => some r
      | none => matchRE ci b s cp k
  | .starC c, s, cp, k => tryDrops s cp k (maxRun ci c s)
  | .grpC g c, s, cp, k => tryDropsCap s cp g k (maxRun ci c s)

/-- Try to match `re` at the start of `s`; returns the length of the match
and the captures. -/
def matchAt (ci : Bool) (re : RE) (s : List Char) : Option (Nat × Caps) :=
  matchRE ci re s Caps.empty (fun rest cp => some (s.length - rest.length, cp))

/-- Leftmost search: returns `(start index, match length, captures)` of the
first match, scanning positions left to right like `re.search`. -/
def reSearchAux (ci : Bool) (re : RE) : List Char → Option (Nat × Nat × Caps)
  | [] =>
      match matchAt ci re [] with
      | some (l, cp) => some (0, l, cp)
      | none => none
  | s@(_ :: rest) =>
      match matchAt ci re s with
      | some (l, cp) => some (0, l, cp)
      | none =>
          match reSearchAux ci re rest with
          | some (i, l, cp) => some (i + 1, l, cp)
          | none => none

/-- `re.search(pattern, s)`: `some` iff a match exists. -/
def reSearch (ci : Bool) (re : RE) (s : List Char) : Option (Nat × Nat × Caps) :=
  reSearchAux ci re s

/-- `re.findall` for a pattern with two groups: the list of `(group1,
group2)` pairs of the non-overlapping matches, left to right.  `fuel`
bounds the recursion (the patterns used never match the empty string). -/
def findAllAux (ci : Bool) (re : RE) : Nat → List Char → List (List Char × List Char)
  | 0, _ => []
  | fuel + 1, s =>
      match reSearch ci re s with
      | none => []
      | some (i, l, cp) =>
          if l = 0 then []
          else (cp.g1.getD [], cp.g2.getD []) :: findAllAux ci re fuel (s.drop (i + l))

def findAll (ci : Bool) (re : RE) (s : List Char) : List (List Char × List Char) :=
  findAllAux ci re (s.length + 1) s

/-- `re.sub(pattern, open ++ \1 ++ close, s)`: replace every
non-overlapping match of `re`, wrapping the matched text between `openT`
and `closeT` (the source always wraps the whole match, since it
parenthesises the entire filter pattern). -/
def subAllAux (ci : Bool) (re : RE) (openT closeT : List Char) : Nat → List Char → List Char
  | 0, s => s
  | fuel + 1, s =>
      match reSearch ci re s with
      | none => s
      | some (i, l, _) =>
          if l = 0 then s
          else
            s.take i ++ openT ++ ((s.drop i).take l) ++ closeT ++
              subAllAux ci re openT closeT fuel (s.drop (i + l))

def subAll (ci : Bool) (re : RE) (openT closeT : List Char) (s : List Char) : List Char :=
  subAllAux ci re openT closeT (s.length + 1) s

/-- Concatenation of a list of regexes. -/
def cats (l : List RE) : RE := l.foldr RE.cat RE.eps

/-! ### The patterns of `tex_filters.py`, translated one by one. -/

/-- `ENABLE_TEX = r'(\~+\sRunning tex.*\s\~+)'` (the outer group does not
affect matching). -/
def ENABLE_TEX : RE := cats [tildes, wsRE, litRE "Running tex", dotStar, wsRE, tildes]

/-- `ENABLE_LATEX = r'(\~+\sRunning latex.*\s\~+)'` -/
def ENABLE_LATEX : RE := cats [tildes, wsRE, litRE "Running latex", dotStar, wsRE, tildes]

/-- `ENABLE_PDFLATEX = r'(\~+\sRunning pdflatex.*\s\~+)'` -/
def ENABLE_PDFLATEX : RE := cats [tildes, wsRE, litRE "Running pdflatex", dotStar, wsRE, tildes]

/-- `DISABLE_HTEX = r'(\~+\sRunning htex.*\s\~+)'` -/
def DISABLE_HTEX : RE := cats [tildes, wsRE, litRE "Running htex", dotStar, wsRE, tildes]

/-- `DISABLE_HLATEX = r'(\~+\sRunning hlatex.*\s\~+)'` -/
def DISABLE_HLATEX : RE := cats [tildes, wsRE, litRE "Running hlatex", dotStar, wsRE, tildes]

/-- `DISABLE_HPDFLATEX = r'(\~+\sRunning hpdflatex.*\s\~+)'` -/
def DISABLE_HPDFLATEX : RE := cats [tildes, wsRE, litRE "Running hpdflatex", dotStar, wsRE, tildes]

/-- `RUN_ORDER = ['last', 'first', 'second', 'third', 'fourth']` -/
def RUN_ORDER : List (List Char) :=
  ["last".data, "first".data, "second".data, "third".data, "fourth".data]

/-- `run_regex = re.compile(r'\~+\sRunning (.*) for the (.*) time\s\~+', re.IGNORECASE | re.MULTILINE)` -/
def run_regex : RE :=
  cats [tildes, wsRE, litRE "Running ", RE.grpC 1 .anyNN, litRE " for the ",
        RE.grpC 2 .anyNN, litRE " time", wsRE, tildes]

/-- `r'No log available.'` (the final `.` is the any-character wildcard). -/
def noLogRE : RE := cats [litRE "No log available", RE.cls .anyNN]

/-- `r'Fatal fontspec error: "cannot-use-pdftex"'` -/
def abortPat1 : RE := litRE "Fatal fontspec error: \"cannot-use-pdftex\""

/-- `'The fontspec package requires either XeTeX or LuaTeX.'` (trailing `.`
is the wildcard). -/
def abortPat2 : RE := cats [litRE "The fontspec package requires either XeTeX or LuaTeX", RE.cls .anyNN]

/-- `r'{cannot-use-pdftex}'` (Python treats these braces as literals). -/
def abortPat3 : RE := litRE "\x7bcannot-use-pdftex\x7d"

/-- `r"get arXiv to do 4 passes\: Label\(s\) may have changed"` -/
def fourPassesRE : RE := litRE "get arXiv to do 4 passes: Label(s) may have changed"

/-- `'.*AutoTeX returned error: missfont.log present.'` -/
def missfontLongRE : RE :=
  cats [dotStar, litRE "AutoTeX returned error: missfont", RE.cls .anyNN,
        litRE "log present", RE.cls .anyNN]

/-- `'.*missfont.log present.'` -/
def missfontShortRE : RE :=
  cats [dotStar, litRE "missfont", RE.cls .anyNN, litRE "log present", RE.cls .anyNN]

/-- `"missfont.log present"` as searched by the error-summary handler. -/
def missfontRE : RE := cats [litRE "missfont", RE.cls .anyNN, litRE "log present"]

/-- `'dvips: Font .* not found; characters will be left blank.'` -/
def dvipsRE : RE :=
  cats [litRE "dvips: Font ", dotStar, litRE " not found; characters will be left blank",
        RE.cls .anyNN]

/-- `r'Fatal .* error'` -/
def fatalDotRE : RE := cats [litRE "Fatal ", dotStar, litRE " error"]

/-- `r'file (.*) not found'` (the capture group does not affect matching). -/
def fileNotFoundRE : RE := cats [litRE "file ", dotStar, litRE " not found"]

/-- `'Package rerunfilecheck Warning:.*'` -/
def rerunPkgRE : RE := cats [litRE "Package rerunfilecheck Warning:", dotStar]

/-- `'.*\(rerunfilecheck\).*'` -/
def rerunParenRE : RE := cats [dotStar, litRE "(rerunfilecheck)", dotStar]

/-- `"rerunfilecheck|rerun"` as searched by the rerun handler. -/
def rerunAltRE : RE := RE.alt (litRE "rerunfilecheck") (litRE "rerun")

/-- `r"oberdiek"` -/
def oberdiekRE : RE := litRE "oberdiek"

/-- `'emergency stop'` -/
def emergencyRE : RE := litRE "emergency stop"

/-- `r'Citation.*undefined'` -/
def citationRE : RE := cats [litRE "Citation", dotStar, litRE "undefined"]

/-- `r'Reference.*undefined'` -/
def referenceRE : RE := cats [litRE "Reference", dotStar, litRE "undefined"]

/-- `r'No .* file'` -/
def noFileRE : RE := cats [litRE "No ", dotStar, litRE " file"]

/-- `r'\~+\sRunning.*\s\~+'` (the info filter for banner lines). -/
def bannerInfoRE : RE := cats [tildes, wsRE, litRE "Running", dotStar, wsRE, tildes]

/-- `r'\*\* AutoTeX job completed. \*\*'` -/
def jobCompletedRE : RE := cats [litRE "** AutoTeX job completed", RE.cls .anyNN, litRE " **"]

/-- One entry of the `filters` list: `[css class, regex, run spec]`. -/
structure MarkupFilter where
  level : String
  pat : RE
  runSpec : String
deriving Repr, DecidableEq

/-- The ordered `filters` list of `compilation_log_display`, in source
order. -/
def filters : List MarkupFilter := [
  ⟨"ignore", fourPassesRE, ""⟩,
  ⟨"abort", abortPat1, ""⟩,
  ⟨"abort", abortPat2, ""⟩,
  ⟨"abort", abortPat3, ""⟩,
  ⟨"fatal", litRE "*** AutoTeX ABORTING ***", ""⟩,
  ⟨"fatal", missfontLongRE, ""⟩,
  ⟨"fatal", dvipsRE, ""⟩,
  ⟨"fatal", missfontShortRE, ""⟩,
  ⟨"fatal", fatalDotRE, ""⟩,
  ⟨"fatal", litRE "fatal", ""⟩,
  ⟨"danger", fileNotFoundRE, ""⟩,
  ⟨"danger", litRE "failed", ""⟩,
  ⟨"danger", emergencyRE, ""⟩,
  ⟨"danger", litRE "not allowed", ""⟩,
  ⟨"danger", litRE "does not exist", ""⟩,
  ⟨"danger", rerunPkgRE, "last"⟩,
  ⟨"danger", rerunParenRE, "last"⟩,
  ⟨"danger", litRE "rerun", "last"⟩,
  ⟨"warning", citationRE, "last"⟩,
  ⟨"warning", referenceRE, "last"⟩,
  ⟨"warning", noFileRE, ""⟩,
  ⟨"warning", litRE "warning", "second"⟩,
  ⟨"warning", litRE "unsupported", ""⟩,
  ⟨"warning", litRE "unable", ""⟩,
  ⟨"warning", litRE "ignore", ""⟩,
  ⟨"warning", litRE "undefined", "second"⟩,
  ⟨"info", bannerInfoRE, ""⟩,
  ⟨"info", litRE "*** Using TeX Live 2016 ***", ""⟩,
  ⟨"success", litRE "Extracting files from archive:", ""⟩,
  ⟨"success", litRE "Successfully created PDF file:", ""⟩,
  ⟨"success", jobCompletedRE, ""⟩,
  ⟨"ignore", referenceRE, "first"⟩,
  ⟨"ignore", citationRE, "first"⟩,
  ⟨"ignore", litRE "warning", "first"⟩,
  ⟨"ignore", litRE "undefined", "first"⟩]

/-! ### Dictionary and list primitives (`dict`, `list.index`). -/

/-- `d[k]` on a Python dict: `none` models `KeyError`. -/
def dictGet (d : List (List Char × List Char)) (k : List Char) : Option (List Char) :=
  match d.find? (fun p => p.1 == k) with
  | some p => some p.2
  | none => none

/-- `d[k] = v` on a Python dict: updates in place (keeping insertion
order), appends a new entry otherwise. -/
def dictUpsert (d : List (List Char × List Char)) (k v : List Char) :
    List (List Char × List Char) :=
  if (d.find? (fun p => p.1 == k)).isSome then
    d.map (fun p => if p.1 == k then (k, v) else p)
  else d ++ [(k, v)]

/-- `xs.index(x)`: `none` models `ValueError`. -/
def listIndex (xs : List (List Char)) (x : List Char) : Option Nat :=
  xs.findIdx? (fun y => y == x)

/-! ### Fixed strings of the annotator. -/

/-- `initialize_error_summary()`. -/
def initialize_error_summary : List Char :=
  "\nSummary of <span class=\"tex-fatal\">Critical Errors:</span>\n\n<ul>\n".data

/-- `finalize_error_summary(error_summary)`. -/
def finalize_error_summary (es : List Char) : List Char := es ++ "</ul>\n".data

/-- Appending one entry to the error summary: lazily open the block, else
separate from the previous entry with a newline (lines 383-387 pattern,
repeated at each handler). -/
def esAppend (es entry : List Char) : List Char :=
  (if es = [] then initialize_error_summary else es ++ "\n".data) ++ entry

/-- The XeTeX/LuaTeX abort entry (lines 388-394). -/
def abortEntry (sid : Int) : List Char :=
  ("\t<li>At the current time arXiv does not support XeTeX/LuaTeX.\n\n\tIf you believe that your submission requires a compilation method \n\tunsupported by arXiv, please contact <span class=\"tex-help\">help@arxiv.org</span> for \n\tmore information and provide us with this submit/" ++
    toString sid ++ " identifier.</li>").data

/-- The missing-font entry (lines 410-420). -/
def missfontEntry (sid : Int) : List Char :=
  ("\t<li>A font required by your paper is not available. You may try to \n\tinclude a non-standard font or substitue an alternative font. \n\tSee <span class=\"tex-help\"><a href=\"https://arxiv.org/help/00README#fontmap\">Custom Fontmaps</a></span>. If this is due to a problem with \n\tour system, please contact <span class=\"tex-help\">help@arxiv.org</span> with details \n\tand provide us with this submission identifier: submit/" ++
    toString sid ++ ".</li>").data

/-- The rerun-needed entry (lines 435-444), including the source's own
`/li>` typo. -/
def rerunEntry : List Char :=
  "\t<li>Analysis of the compilation log indicates your submission \n\tmay need an additional TeX run. Please add the following line \n\tto your source in order to force an additional TeX run:\n\n\t<span class=\"tex-help\">\\typeout\x7bget arXiv to do 4 passes: Label(s) may have changed. Rerun\x7d</span>\n\n\tAdd the above line just before <span class=\"tex-help\">\\end\x7bdocument\x7d</span> directive./li>".data

/-- The missing-file entry (lines 469-473); it embeds the annotated line. -/
def missingFileEntry (line : List Char) : List Char :=
  "<li>\tA file required by your submission was not found.\n\t".data ++ line ++
  "\n\tPlease upload any missing files, or correct any file naming issues, and then reprocess your submission.</li>".data

/-- The emergency-stop entry (lines 489-493), `determie` typo included. -/
def emergencyEntry : List Char :=
  "\t<li>We detected an emergency stop during one of the TeX compilation runs. Please review the compilation log to determie whether there is a serious issue with your submission source.</li>".data

/-- `run_summary`'s fixed head (lines 50-53 and 78-80). -/
def runSummaryHeader : List Char :=
  "If you are attempting to compile with a specific engine (PDFLaTeX, LaTeX, \nTeX) please carefully review the appropriate log below.\n\nSummary of TeX runs:\n\n".data

/-- `key_summary` is the empty string (its contents are commented out in
the source). -/
def key_summary : List Char := []

/-! ### Run discovery (lines 94-134). -/

/-- The values accumulated by the discovery loop over
`run_regex.findall(autotex_log)`. -/
structure Discovery where
  run_summary : List Char
  last_run_for_engine : List (List Char × List Char)
  enable_markup : List RE
  disable_markup : List RE
  success_last_engine : List Char
  success_last_run : List Char

/-- One iteration of the discovery loop (lines 105-129). -/
def discoverStep (d : Discovery) (hit : List Char × List Char) : Discovery :=
  let engine := hit.1
  let run := hit.2
  let d := { d with
    run_summary := d.run_summary ++ "\tRunning ".data ++ engine ++ " for ".data ++
      run ++ " time.".data ++ "\n".data,
    success_last_engine := engine,
    success_last_run := run,
    last_run_for_engine := dictUpsert d.last_run_for_engine engine run }
  let d :=
    if engine = "pdflatex".data then
      { d with disable_markup := d.disable_markup ++ [DISABLE_HPDFLATEX],
               enable_markup := d.enable_markup ++ [ENABLE_PDFLATEX] }
    else d
  let d :=
    if engine = "latex".data then
      { d with disable_markup := d.disable_markup ++ [DISABLE_HLATEX],
               enable_markup := d.enable_markup ++ [ENABLE_LATEX] }
    else d
  if engine = "tex".data then
    { d with disable_markup := d.disable_markup ++ [DISABLE_HTEX],
             enable_markup := d.enable_markup ++ [ENABLE_TEX] }
  else d

/-- The whole discovery pass over the raw log. -/
def mkDiscovery (log : List Char) : Discovery :=
  (findAll true run_regex log).foldl discoverStep
    ⟨runSummaryHeader, [], [], [], [], []⟩

/-- `run_summary` after the last-run lines are appended (lines 131-134). -/
def runSummaryFull (d : Discovery) : List Char :=
  d.last_run_for_engine.foldl
    (fun acc p => acc ++ "\tLast run for engine ".data ++ p.1 ++ " is ".data ++
      p.2 ++ "\n".data)
    (d.run_summary ++ "\n".data)

/-! ### The per-line scan (lines 270-501). -/

/-- The mutable locals of the scanning loop. -/
structure ScanState where
  new_log : List Char
  current_engine : List Char
  current_run : List Char
  last_run : Bool
  markup_enabled : Bool
  error_summary : List Char
  abort_markup : Bool
  xetex_luatex_abort : Bool
  emergency_stop : Bool
  missing_file : Bool
  missing_font_markup : Bool
  rerun_markup : Bool
  final_run_had_errors : Bool
  final_run_had_warnings : Bool
deriving Repr, DecidableEq

/-- Initial scan state (lines 82, 141-144, 258-273). -/
def initState : ScanState :=
  { new_log := [], current_engine := [], current_run := [], last_run := false,
    markup_enabled := true, error_summary := [], abort_markup := false,
    xetex_luatex_abort := false, emergency_stop := false, missing_file := false,
    missing_font_markup := false, rerun_markup := false,
    final_run_had_errors := false, final_run_had_warnings := false }

/-- The immutable context of the scanning loop. -/
structure Ctx where
  enable_markup : List RE
  disable_markup : List RE
  last_run_for_engine : List (List Char × List Char)
  run_summary : List Char
  success_last_engine : List Char
  success_last_run : List Char
  compilation_status : String
  submission_id : Int

/-- Lines 308-315: the generic run-banner check that runs on every line
(regardless of enable/disable), updating current engine/run and the
last-run flag.  The unguarded `last_run_for_engine[current_engine]` lookup
models the `KeyError` as `none`. -/
def genericBanner (ctx : Ctx) (st : ScanState) (line : List Char) : Option ScanState :=
  match reSearch true run_regex line with
  | none => some st
  | some (_, _, cp) =>
      let st := { st with current_engine := cp.g1.getD [], current_run := cp.g2.getD [] }
      match dictGet ctx.last_run_for_engine st.current_engine with
      | none => none
      | some lr => some (if lr = st.current_run then { st with last_run := true } else st)

/-- Lines 280-315: the disable loop, the enable loop and the generic
banner check, in source order, on the escaped line. -/
def bannerPhase (ctx : Ctx) (st : ScanState) (line : List Char) : Option ScanState :=
  let st :=
    if ctx.disable_markup.any (fun re => (reSearch true re line).isSome) then
      { st with markup_enabled := false }
    else st
  if ctx.enable_markup.any (fun re => (reSearch true re line).isSome) then
    let st := { st with markup_enabled := true }
    let st :=
      match reSearch true run_regex line with
      | none => st
      | some (_, _, cp) =>
          { st with current_engine := cp.g1.getD [], current_run := cp.g2.getD [] }
    if st.current_engine ≠ [] ∧ st.current_run ≠ [] then
      match dictGet ctx.last_run_for_engine st.current_engine with
      | none => none
      | some lr =>
          genericBanner ctx
            (if lr = st.current_run then { st with last_run := true } else st) line
    else genericBanner ctx st line
  else genericBanner ctx st line

/-- Lines 352-354: should this filter be skipped because of its run spec?
`runSpec` is the spec after the empty default was replaced by `first`.
`some true` means skip, `none` models the `ValueError`/`KeyError` raised
while evaluating the condition (in Python's evaluation order). -/
def runGuardSkip (ctx : Ctx) (st : ScanState) (runSpec : List Char) : Option Bool :=
  if runSpec ≠ [] ∧ st.current_run ≠ [] then
    match listIndex RUN_ORDER runSpec with
    | none => none
    | some ri =>
        match listIndex RUN_ORDER st.current_run with
        | none => none
        | some ci =>
            if ri > ci then some true
            else if runSpec = "last".data then
              match dictGet ctx.last_run_for_engine st.current_engine with
              | none => none
              | some lr => some (decide (st.current_run ≠ lr))
            else some false
  else some false

/-- The filter-selection part of the loop at lines 334-363: walk the
ordered filter list, skipping non-fatal filters once the abort latch is
set (line 339) and filters whose run spec is not satisfied (line 352);
the first remaining filter whose pattern matches the line fires.
`some none`: no filter fired; `none`: an exception escaped. -/
def firedFilter (ctx : Ctx) (st : ScanState) (line : List Char) :
    List MarkupFilter → Option (Option MarkupFilter)
  | [] => some none
  | f :: fs =>
      if st.abort_markup = true ∧ f.level ≠ "fatal" ∧ f.level ≠ "abort" then
        firedFilter ctx st line fs
      else
        let rs := if f.runSpec = "" then "first" else f.runSpec
        match runGuardSkip ctx st rs.data with
        | none => none
        | some true => firedFilter ctx st line fs
        | some false =>
            if (reSearch true f.pat line).isSome then some (some f)
            else firedFilter ctx st line fs

/-- `level` after the `abort → fatal` conversion of lines 359-361. -/
def effLevel (f : MarkupFilter) : String :=
  if f.level = "abort" then "fatal" else f.level

/-- The opening span tag inserted by the substitution at line 364. -/
def spanOpen (level : String) : List Char :=
  ("<span class=\"tex-" ++ level ++ "\">").data

/-- The closing span tag. -/
def spanClose : List Char := "</span>".data

/-- Line 364: wrap every match of the fired filter in a severity span. -/
def annotateLine (f : MarkupFilter) (line : List Char) : List Char :=
  subAll true f.pat (spanOpen (effLevel f)) spanClose line

/-- Lines 367-375: accumulate the final-run warning/error flags when the
fired filter's line belongs to the status-bearing final engine/run. -/
def successFlagsUpdate (ctx : Ctx) (st : ScanState) (lvl : String) : ScanState :=
  if ctx.compilation_status = "succeeded" ∧
     st.current_engine = ctx.success_last_engine ∧
     st.current_run = ctx.success_last_run then
    let st := if lvl = "warning" then { st with final_run_had_warnings := true } else st
    if lvl = "danger" ∨ lvl = "fatal" then { st with final_run_had_errors := true } else st
  else st

/-- Lines 377-397: the XeTeX/LuaTeX abort handler; sets both the
`xetex_luatex_abort` flag and the permanent `abort_markup` latch. -/
def abortHandler (ctx : Ctx) (st : ScanState) (f : MarkupFilter) (line : List Char) : ScanState :=
  if st.abort_markup = false ∧ f.level = "abort" ∧
     ((reSearch false abortPat1 line).isSome ∨ (reSearch false abortPat2 line).isSome ∨
      (reSearch false abortPat3 line).isSome) then
    { st with error_summary := esAppend st.error_summary (abortEntry ctx.submission_id),
              xetex_luatex_abort := true, abort_markup := true }
  else st

/-- Lines 399-422: the missing-font handler, behind its one-shot latch. -/
def missfontHandler (ctx : Ctx) (st : ScanState) (lvl : String) (line : List Char) : ScanState :=
  if st.missing_font_markup = false ∧ lvl = "fatal" ∧
     (reSearch false missfontRE line).isSome then
    { st with error_summary := esAppend st.error_summary (missfontEntry ctx.submission_id),
              missing_font_markup := true }
  else st

/-- Lines 424-450: the rerun-needed handler; note that it also sets
`final_run_had_warnings`, on whatever run it fires. -/
def rerunHandler (st : ScanState) (lvl : String) (line : List Char) : ScanState :=
  if st.rerun_markup = false ∧ lvl = "danger" ∧
     (reSearch false rerunAltRE line).isSome ∧
     (reSearch false fourPassesRE line).isNone ∧
     (reSearch false oberdiekRE line).isNone then
    { st with error_summary := esAppend st.error_summary rerunEntry,
              final_run_had_warnings := true, rerun_markup := true }
  else st

/-- Lines 452-476: the missing-file handler (evaluated on every run). -/
def missingFileHandler (st : ScanState) (lvl : String) (line : List Char) : ScanState :=
  if st.missing_file = false ∧ lvl = "danger" ∧
     (reSearch true fileNotFoundRE line).isSome then
    { st with error_summary := esAppend st.error_summary (missingFileEntry line),
              missing_file := true }
  else st

/-- Lines 478-495: the emergency-stop handler, suppressed once
missing-file has been reported. -/
def emergencyHandler (st : ScanState) (lvl : String) (line : List Char) : ScanState :=
  if st.missing_file = false ∧ st.emergency_stop = false ∧ lvl = "danger" ∧
     (reSearch true emergencyRE line).isSome then
    { st with error_summary := esAppend st.error_summary emergencyEntry,
              emergency_stop := true }
  else st

/-- Lines 359-501 for a line on which filter `f` fired: the substitution,
the success-flag accumulation, the five error-summary handlers (each
behind its one-shot latch, in source order) and the append of the
annotated line. -/
def applyEffects (ctx : Ctx) (st : ScanState) (line : List Char) (f : MarkupFilter) : ScanState :=
  let lvl := effLevel f
  let line := annotateLine f line
  let st := successFlagsUpdate ctx st lvl
  let st := abortHandler ctx st f line
  let st := missfontHandler ctx st lvl line
  let st := rerunHandler st lvl line
  let st := missingFileHandler st lvl line
  let st := emergencyHandler st lvl line
  { st with new_log := st.new_log ++ line ++ "\n".data }

/-- Lines 321-501 (with `skip_markup` empty, its loop is a no-op): select
the fired filter; if none fired, append the escaped line unchanged. -/
def filterPhase (ctx : Ctx) (st : ScanState) (line : List Char) : Option ScanState :=
  match firedFilter ctx st line filters with
  | none => none
  | some none => some { st with new_log := st.new_log ++ line ++ "\n".data }
  | some (some f) => some (applyEffects ctx st line f)

/-- The whole body of the `for line in line_by_line` loop for one raw
line: escape, banner phase, the `continue` when markup is disabled,
filter phase. -/
def stepLine (ctx : Ctx) (st : ScanState) (raw : List Char) : Option ScanState :=
  let line := htmlEscape raw
  match bannerPhase ctx st line with
  | none => none
  | some st1 =>
      if st1.markup_enabled = false then some st1
      else filterPhase ctx st1 line

/-- The scan over all lines. -/
def scanLines (ctx : Ctx) : ScanState → List (List Char) → Option ScanState
  | st, [] => some st
  | st, l :: ls =>
      match stepLine ctx st l with
      | none => none
      | some st1 => scanLines ctx st1 ls

/-! ### Final status and report assembly (lines 503-546). -/

/-- Lines 511-537: derive `(status_class, display_status)`. -/
def deriveStatus (compilation_status : String) (xetex_luatex_abort
    final_run_had_errors final_run_had_warnings : Bool) : String × String :=
  if compilation_status = "failed" then
    ("fatal",
     if xetex_luatex_abort then "Failed: XeTeX/LuaTeX are not supported at current time."
     else "Failed")
  else if compilation_status = "succeeded" then
    if final_run_had_errors ∧ ¬final_run_had_warnings then
      ("danger", "Succeeded with possible errors. \n\t\tBe sure to carefully inspect log (see below).")
    else if ¬final_run_had_errors ∧ final_run_had_warnings then
      ("warning", "Succeeded with warnings. We recommend that you \n\t\tinspect the log (see below).")
    else if final_run_had_errors ∧ final_run_had_warnings then
      ("danger", "Succeeded with (possibly significant) errors and warnings. \n\t\tPlease be sure to carefully inspect log (see below).")
    else ("success", "Succeeded!")
  else ("warning", "Succeeded with warnings")

/-- Line 539: the status line. -/
def statusLine (cls disp : String) : List Char :=
  ("\nProcessing Status: <span class=\"tex-" ++ cls ++ "\">" ++ disp ++ "</span>\n\n").data

/-- Build the scan context from the discovery results. -/
def mkCtx (log : List Char) (submission_id : Int) (compilation_status : String) : Ctx :=
  let d := mkDiscovery log
  { enable_markup := d.enable_markup, disable_markup := d.disable_markup,
    last_run_for_engine := d.last_run_for_engine,
    run_summary := runSummaryFull d,
    success_last_engine := d.success_last_engine,
    success_last_run := d.success_last_run,
    compilation_status := compilation_status, submission_id := submission_id }

/-- Lines 503-544: finalize the error summary, derive the status and glue
the report together. -/
def assemble (ctx : Ctx) (stF : ScanState) : List Char :=
  let error_summary :=
    if stF.error_summary ≠ [] then finalize_error_summary stF.error_summary
    else stF.error_summary
  let sd := deriveStatus ctx.compilation_status stF.xetex_luatex_abort
    stF.final_run_had_errors stF.final_run_had_warnings
  ctx.run_summary ++ statusLine sd.1 sd.2 ++ error_summary ++ key_summary ++
    "\n\n<b>Marked Up Log:</b>\n\n".data ++ stF.new_log

/-- `compilation_log_display(autotex_log, submission_id,
compilation_status)`.  `none` models an uncaught Python exception
(`KeyError`/`ValueError` during the scan). -/
def compilation_log_display (autotex_log : String) (submission_id : Int)
    (compilation_status : String) : Option String :=
  if (reSearch false noLogRE autotex_log.data).isSome then some autotex_log
  else
    match scanLines (mkCtx autotex_log.data submission_id compilation_status)
        initState (splitlines autotex_log.data) with
    | none => none
    | some stF =>
        some (String.mk (assemble (mkCtx autotex_log.data submission_id compilation_status) stF))

/-! ### Auxiliary definitions used by the statements below. -/

/-- The scan-state fields that the banner phase (lines 280-315) never
writes: everything except `current_engine`, `current_run`, `last_run` and
`markup_enabled`. -/
def NonBannerFieldsEq (st st' : ScanState) : Prop :=
  st'.new_log = st.new_log ∧ st'.error_summary = st.error_summary ∧
  st'.abort_markup = st.abort_markup ∧ st'.xetex_luatex_abort = st.xetex_luatex_abort ∧
  st'.emergency_stop = st.emergency_stop ∧ st'.missing_file = st.missing_file ∧
  st'.missing_font_markup = st.missing_font_markup ∧ st'.rerun_markup = st.rerun_markup ∧
  st'.final_run_had_errors = st.final_run_had_errors ∧
  st'.final_run_had_warnings = st.final_run_had_warnings

/-- Number of (possibly overlapping) occurrences of `M` in `s`, one per
start position. -/
def countOcc (M : List Char) : List Char → Nat
  | [] => if M.isEmpty then 1 else 0
  | s@(_ :: rest) => (if M.isPrefixOf s then 1 else 0) + countOcc M rest

/-- A marker identifying the missing-font error-summary entry: a prefix
of `missfontEntry` that no other part of the report can produce. -/
def missfontMarker : List Char :=
  "<li>A font required by your paper is not available.".data

/-- A marker identifying the missing-file error-summary entry. -/
def missingFileMarker : List Char :=
  "A file required by your submission was not found".data

/-- Scans a list for `<` characters: every `<` must be followed by `s` or
`/` (as in the annotator's own `<span ...>` / `</span>` insertions).
Annotated lines satisfy this because the escaped line contains no `<` at
all and the only insertions are span tags. -/
def wrapOk : List Char → Bool
  | [] => true
  | c :: rest =>
      if c = '<' then
        match rest with
        | [] => false
        | d :: _ => ((d = 's') || (d = '/')) && wrapOk rest
      else wrapOk rest

/-- The side condition of the amended C5: on this line, no
warning/danger/fatal-severity filter fires while the current engine/run
is the status-bearing final one, and the rerun-needed handler does not
trigger.  (`true` also when the line is dropped or no filter fires.) -/
def stepOkForSuccess (ctx : Ctx) (st : ScanState) (raw : List Char) : Bool :=
  match bannerPhase ctx st (htmlEscape raw) with
  | none => true
  | some st1 =>
      if st1.markup_enabled = false then true
      else
        match firedFilter ctx st1 (htmlEscape raw) filters with
        | none => true
        | some none => true
        | some (some f) =>
            (!(decide (st1.current_engine = ctx.success_last_engine) &&
               decide (st1.current_run = ctx.success_last_run) &&
               (decide (effLevel f = "warning") || decide (effLevel f = "danger") ||
                decide (effLevel f = "fatal")))) &&
            (!(decide (st1.rerun_markup = false) &&
               decide (effLevel f = "danger") &&
               (reSearch false rerunAltRE (annotateLine f (htmlEscape raw))).isSome &&
               (reSearch false fourPassesRE (annotateLine f (htmlEscape raw))).isNone &&
               (reSearch false oberdiekRE (annotateLine f (htmlEscape raw))).isNone))

/-- `stepOkForSuccess` along the whole scan. -/
def stepsOkForSuccess (ctx : Ctx) : ScanState → List (List Char) → Bool
  | _, [] => true
  | st, l :: ls =>
      stepOkForSuccess ctx st l &&
      (match stepLine ctx st l with
       | none => true
       | some st1 => stepsOkForSuccess ctx st1 ls)

/-! ## Generic lemmas about the regex engine -/

/-- Matching a literal pattern against that literal followed by anything
consumes exactly the literal. -/
theorem matchRE_litList {A : Type} (w : List Char) (rest : List Char) (cp : Caps)
    (k : List Char → Caps → Option A) :
    matchRE false (w.foldr (fun c r => RE.cat (RE.cls (.litC c)) r) RE.eps) (w ++ rest) cp k
      = k rest cp := by
  induction w generalizing cp with
  | nil => rfl
  | cons c w ih =>
      simp only [List.foldr_cons, List.cons_append, matchRE]
      rw [if_pos (by simp [ccTest])]
      exact ih cp

/-- The `No log available.` pattern matches the literal text followed by
any non-newline character. -/
theorem matchAt_noLog (c : Char) (hc : c ≠ '\n') (v : List Char) :
    (matchAt false noLogRE ("No log available".data ++ c :: v)).isSome = true := by
  unfold matchAt
  have h1 : matchRE false noLogRE ("No log available".data ++ c :: v) Caps.empty
      (fun rest cp =>
        some (("No log available".data ++ c :: v).length - rest.length, cp))
      = some (("No log available".data ++ c :: v).length - v.length, Caps.empty) := by
    show matchRE false
      (RE.cat (litRE "No log available") (RE.cat (RE.cls .anyNN) RE.eps)) _ _ _ = _
    simp [matchRE, litRE, ccTest, hc]
  rw [h1]
  rfl

/-- If the pattern matches at some position, the leftmost search finds a
match. -/
theorem reSearchAux_isSome_of_matchAt (ci : Bool) (re : RE) :
    ∀ (pre post : List Char), (matchAt ci re post).isSome = true →
      (reSearchAux ci re (pre ++ post)).isSome = true := by
  intro pre
  induction pre with
  | nil =>
      intro post h
      cases post with
      | nil =>
          rcases hm : matchAt ci re [] with _ | ⟨l, cp⟩
          · rw [hm] at h; simp at h
          · simp [reSearchAux, hm]
      | cons x rest =>
          rcases hm : matchAt ci re (x :: rest) with _ | ⟨l, cp⟩
          · rw [hm] at h; simp at h
          · simp [reSearchAux, hm]
  | cons c pre ih =>
      intro post h
      simp only [List.cons_append]
      rcases hm : matchAt ci re (c :: (pre ++ post)) with _ | ⟨l, cp⟩
      · have h2 := ih post h
        rcases hs : reSearchAux ci re (pre ++ post) with _ | ⟨i, l, cp⟩
        · rw [hs] at h2; simp at h2
        · simp [reSearchAux, hm, hs]
      · simp [reSearchAux, hm]

/-! ## C9 -/

/-- C9: for every input string containing the literal substring
`No log available.`, `compilation_log_display` returns the input string
unchanged (the sentinel check at line 45 fires, since the literal `.`
matches the pattern's trailing wildcard). -/
theorem c9_no_log_available_passthrough (s : String) (sid : Int) (status : String)
    (h : "No log available.".data <:+: s.data) :
    compilation_log_display s sid status = some s := by
  obtain ⟨u, v, huv⟩ := h
  have hx : (reSearchAux false noLogRE s.data).isSome = true := by
    have hdot : "No log available.".data = "No log available".data ++ ['.'] := by decide
    have hsd : s.data = u ++ ("No log available".data ++ '.' :: v) := by
      rw [← huv, hdot]
      simp [List.append_assoc]
    rw [hsd]
    exact reSearchAux_isSome_of_matchAt false noLogRE u _ (matchAt_noLog '.' (by decide) v)
  simp only [compilation_log_display, reSearch]
  rw [if_pos hx]

/-- Witness for C9 at a concrete input. -/
theorem c9_witness :
    ("No log available.".data <:+: "x No log available. y".data) ∧
    compilation_log_display "x No log available. y" 5 "other" = some "x No log available. y" :=
  ⟨by decide, c9_no_log_available_passthrough "x No log available. y" 5 "other" (by decide)⟩

/-! ## C1 -/

set_option maxRecDepth 100000 in
/-- C1 (code bug): the claim says the call returns normally on every
input; but on a run banner announcing a fifth run the code evaluates
`RUN_ORDER.index('fifth')`, which raises `ValueError` (modelled as
`none`).  The real Python implementation raises
`ValueError: 'fifth' is not in list` on this input. -/
theorem c1_fifth_run_banner_raises :
    compilation_log_display "~~~ Running latex for the fifth time ~~~" 1 "failed" = none := by
  decide

/-! ## C2 -/

set_option maxRecDepth 100000 in
/-- C2 counterexample: `"fatal"` contains no run-banner line (and not the
`No log available.` sentinel), yet the function does not return the raw
input unchanged — the per-line annotation still runs and the output is
the assembled report. -/
theorem c2_counterexample :
    findAll true run_regex "fatal".data = [] ∧
    (reSearch false noLogRE "fatal".data).isNone = true ∧
    compilation_log_display "fatal" 3 "failed" ≠ some "fatal" := by
  decide

/-- C2 amended: with no run-banner matches, discovery yields an empty
engine map and empty enable/disable pattern sets, but annotation is not
skipped: the result (when the scan returns) is the assembled report,
which starts with the fixed run-summary header rather than the raw
input. -/
theorem c2_amended_no_banner_report (log : String) (sid : Int) (status : String) (out : String)
    (hb : findAll true run_regex log.data = [])
    (hnl : (reSearch false noLogRE log.data).isNone = true)
    (hout : compilation_log_display log sid status = some out) :
    (runSummaryHeader ++ "\n".data) <+: out.data ∧
    (mkCtx log.data sid status).last_run_for_engine = [] ∧
    (mkCtx log.data sid status).enable_markup = [] ∧
    (mkCtx log.data sid status).disable_markup = [] := by
  have hctx : mkCtx log.data sid status =
      { enable_markup := [], disable_markup := [], last_run_for_engine := [],
        run_summary := runSummaryHeader ++ "\n".data,
        success_last_engine := [], success_last_run := [],
        compilation_status := status, submission_id := sid } := by
    simp [mkCtx, mkDiscovery, hb, runSummaryFull]
  refine ⟨?_, by rw [hctx], by rw [hctx], by rw [hctx]⟩
  have hcond : (reSearch false noLogRE log.data).isSome = true → False := by
    intro hs
    rw [Option.isNone_iff_eq_none] at hnl
    rw [hnl] at hs
    simp at hs
  unfold compilation_log_display at hout
  rw [if_neg hcond] at hout
  rcases hscan : scanLines (mkCtx log.data sid status) initState (splitlines log.data)
    with _ | stF
  · rw [hscan] at hout; simp at hout
  · rw [hscan] at hout
    have hout2 : out = String.mk (assemble (mkCtx log.data sid status) stF) := by
      have := hout.symm
      injection this
    rw [hout2]
    show (runSummaryHeader ++ "\n".data) <+: assemble (mkCtx log.data sid status) stF
    rw [assemble, hctx]
    exact ((((List.prefix_append _ _).trans
      (List.prefix_append _ _)).trans
      (List.prefix_append _ _)).trans
      (List.prefix_append _ _)).trans
      (List.prefix_append _ _)

set_option maxRecDepth 100000 in
/-- Witness for C2's amended statement at the input `"hello"`. -/
theorem c2_amended_witness :
    (runSummaryHeader ++ "\n".data) <+:
      ("If you are attempting to compile with a specific engine (PDFLaTeX, LaTeX, \nTeX) please carefully review the appropriate log below.\n\nSummary of TeX runs:\n\n\n\nProcessing Status: <span class=\"tex-fatal\">Failed</span>\n\n\n\n<b>Marked Up Log:</b>\n\nhello\n" : String).data :=
  (c2_amended_no_banner_report "hello" 1 "failed" _
    (by decide) (by decide) (by decide)).1

/-! ## C8 -/

set_option maxRecDepth 1000000 in
/-- C8 (code bug): raw `<`/`>` characters from the input can appear
unescaped in the output.  The run summary is built from
`run_regex.findall` on the *raw* log, so an ordinal like `<i>` inside a
suppressed hidden-engine run flows into the output without being
HTML-escaped (the claim says every such character is escaped before any
markup is added). -/
theorem c8_raw_markup_leak :
    ("<i>".data <:+:
      "~~~ Running hlatex for the <i> time ~~~\n~~~ Running latex for the first time ~~~".data) ∧
    ((compilation_log_display
        "~~~ Running hlatex for the <i> time ~~~\n~~~ Running latex for the first time ~~~"
        10 "failed").map
      (fun o => decide ("\tRunning hlatex for <i> time.".data <:+: o.data))) = some true := by
  constructor
  · decide
  · decide

/-! ## Frame lemmas for the scan state machine -/

/-- The generic banner check only writes the banner fields. -/
theorem genericBanner_frame (ctx : Ctx) (st : ScanState) (line : List Char) (st' : ScanState)
    (h : genericBanner ctx st line = some st') : NonBannerFieldsEq st st' := by
  simp only [genericBanner] at h
  unfold NonBannerFieldsEq
  split at h
  · cases h
    exact ⟨rfl, rfl, rfl, rfl, rfl, rfl, rfl, rfl, rfl, rfl⟩
  · split at h
    · cases h
    · cases h
      split <;> exact ⟨rfl, rfl, rfl, rfl, rfl, rfl, rfl, rfl, rfl, rfl⟩

/-- The whole banner phase only writes the banner fields. -/
theorem bannerPhase_frame (ctx : Ctx) (st : ScanState) (line : List Char) (st' : ScanState)
    (h : bannerPhase ctx st line = some st') : NonBannerFieldsEq st st' := by
  simp only [bannerPhase] at h
  iterate 8 (all_goals try split at h)
  all_goals first
    | cases h
    | (have hh := genericBanner_frame ctx _ line st' h
       exact hh)

/-- What `successFlagsUpdate` can do: nothing, set the warnings flag, or
set the errors flag — and only under the final-engine/run condition. -/
theorem successFlagsUpdate_cases (ctx : Ctx) (st : ScanState) (lvl : String) :
    successFlagsUpdate ctx st lvl = st ∨
    (ctx.compilation_status = "succeeded" ∧ st.current_engine = ctx.success_last_engine ∧
     st.current_run = ctx.success_last_run ∧
     ((lvl = "warning" ∧ successFlagsUpdate ctx st lvl = { st with final_run_had_warnings := true }) ∨
      ((lvl = "danger" ∨ lvl = "fatal") ∧
       successFlagsUpdate ctx st lvl = { st with final_run_had_errors := true }))) := by
  unfold successFlagsUpdate
  iterate 3 (all_goals try split)
  all_goals simp_all

/-- What the abort handler can do. -/
theorem abortHandler_cases (ctx : Ctx) (st : ScanState) (f : MarkupFilter) (line : List Char) :
    abortHandler ctx st f line = st ∨
    (st.abort_markup = false ∧ f.level = "abort" ∧
     abortHandler ctx st f line =
       { st with error_summary := esAppend st.error_summary (abortEntry ctx.submission_id),
                 xetex_luatex_abort := true, abort_markup := true }) := by
  unfold abortHandler
  split
  · next hc => exact Or.inr ⟨hc.1, hc.2.1, rfl⟩
  · exact Or.inl rfl

/-- What the missing-font handler can do. -/
theorem missfontHandler_cases (ctx : Ctx) (st : ScanState) (lvl : String) (line : List Char) :
    missfontHandler ctx st lvl line = st ∨
    (st.missing_font_markup = false ∧ lvl = "fatal" ∧
     (reSearch false missfontRE line).isSome = true ∧
     missfontHandler ctx st lvl line =
       { st with error_summary := esAppend st.error_summary (missfontEntry ctx.submission_id),
                 missing_font_markup := true }) := by
  unfold missfontHandler
  split
  · next hc => exact Or.inr ⟨hc.1, hc.2.1, hc.2.2, rfl⟩
  · exact Or.inl rfl

/-- What the rerun handler can do. -/
theorem rerunHandler_cases (st : ScanState) (lvl : String) (line : List Char) :
    rerunHandler st lvl line = st ∨
    (st.rerun_markup = false ∧ lvl = "danger" ∧
     (reSearch false rerunAltRE line).isSome = true ∧
     (reSearch false fourPassesRE line).isNone = true ∧
     (reSearch false oberdiekRE line).isNone = true ∧
     rerunHandler st lvl line =
       { st with error_summary := esAppend st.error_summary rerunEntry,
                 final_run_had_warnings := true, rerun_markup := true }) := by
  unfold rerunHandler
  split
  · next hc => exact Or.inr ⟨hc.1, hc.2.1, hc.2.2.1, hc.2.2.2.1, hc.2.2.2.2, rfl⟩
  · exact Or.inl rfl

/-- What the missing-file handler can do. -/
theorem missingFileHandler_cases (st : ScanState) (lvl : String) (line : List Char) :
    missingFileHandler st lvl line = st ∨
    (st.missing_file = false ∧ lvl = "danger" ∧
     (reSearch true fileNotFoundRE line).isSome = true ∧
     missingFileHandler st lvl line =
       { st with error_summary := esAppend st.error_summary (missingFileEntry line),
                 missing_file := true }) := by
  unfold missingFileHandler
  split
  · next hc => exact Or.inr ⟨hc.1, hc.2.1, hc.2.2, rfl⟩
  · exact Or.inl rfl

/-- What the emergency-stop handler can do. -/
theorem emergencyHandler_cases (st : ScanState) (lvl : String) (line : List Char) :
    emergencyHandler st lvl line = st ∨
    (st.missing_file = false ∧ st.emergency_stop = false ∧ lvl = "danger" ∧
     emergencyHandler st lvl line =
       { st with error_summary := esAppend st.error_summary emergencyEntry,
                 emergency_stop := true }) := by
  unfold emergencyHandler
  split
  · next hc => exact Or.inr ⟨hc.1, hc.2.1, hc.2.2.1, rfl⟩
  · exact Or.inl rfl

/-- The filter phase either applies the fired filter's effects or appends
the untouched line. -/
theorem filterPhase_cases (ctx : Ctx) (st : ScanState) (line : List Char) (st' : ScanState)
    (h : filterPhase ctx st line = some st') :
    (∃ f, firedFilter ctx st line filters = some (some f) ∧
          st' = applyEffects ctx st line f) ∨
    (firedFilter ctx st line filters = some none ∧
     st' = { st with new_log := st.new_log ++ line ++ "\n".data }) := by
  unfold filterPhase at h
  split at h
  · cases h
  · cases h
    exact Or.inr ⟨by assumption, rfl⟩
  · cases h
    next f heq => exact Or.inl ⟨f, heq, rfl⟩

/-- Structure of one scan step: banner phase, then either the line is
dropped (markup disabled) or the filter phase runs. -/
theorem stepLine_cases (ctx : Ctx) (st : ScanState) (raw : List Char) (st' : ScanState)
    (h : stepLine ctx st raw = some st') :
    ∃ st1, bannerPhase ctx st (htmlEscape raw) = some st1 ∧
      ((st1.markup_enabled = false ∧ st' = st1) ∨
       (st1.markup_enabled = true ∧ filterPhase ctx st1 (htmlEscape raw) = some st')) := by
  simp only [stepLine] at h
  split at h
  · cases h
  · next st1 heq =>
      refine ⟨st1, heq, ?_⟩
      split at h
      · cases h
        exact Or.inl ⟨by assumption, rfl⟩
      · next hne => exact Or.inr ⟨by simpa using hne, h⟩

/-- Compositional preservation: a property preserved by every stage of
`applyEffects` is preserved by `applyEffects`. -/
theorem applyEffects_pres (ctx : Ctx) (line : List Char) (f : MarkupFilter)
    (P : ScanState → Prop)
    (hS : ∀ s, P s → P (successFlagsUpdate ctx s (effLevel f)))
    (hA : ∀ s, P s → P (abortHandler ctx s f (annotateLine f line)))
    (hM : ∀ s, P s → P (missfontHandler ctx s (effLevel f) (annotateLine f line)))
    (hR : ∀ s, P s → P (rerunHandler s (effLevel f) (annotateLine f line)))
    (hF : ∀ s, P s → P (missingFileHandler s (effLevel f) (annotateLine f line)))
    (hE : ∀ s, P s → P (emergencyHandler s (effLevel f) (annotateLine f line)))
    (hN : ∀ s nl, P s → P { s with new_log := nl })
    (st : ScanState) (h : P st) : P (applyEffects ctx st line f) := by
  simp only [applyEffects]
  exact hN _ _ (hE _ (hF _ (hR _ (hM _ (hA _ (hS _ h))))))

/-- The abort latch survives every stage of `applyEffects`. -/
theorem applyEffects_abort_mono (ctx : Ctx) (st : ScanState) (line : List Char)
    (f : MarkupFilter) (ha : st.abort_markup = true) :
    (applyEffects ctx st line f).abort_markup = true := by
  refine applyEffects_pres ctx line f (fun s => s.abort_markup = true)
    ?_ ?_ ?_ ?_ ?_ ?_ ?_ st ha
  · intro s hs
    rcases successFlagsUpdate_cases ctx s (effLevel f) with h | ⟨_, _, _, ⟨_, h⟩ | ⟨_, h⟩⟩ <;>
      rw [h] <;> exact hs
  · intro s hs
    rcases abortHandler_cases ctx s f (annotateLine f line) with h | ⟨_, _, h⟩ <;> rw [h]
    exact hs
  · intro s hs
    rcases missfontHandler_cases ctx s (effLevel f) (annotateLine f line)
      with h | ⟨_, _, _, h⟩ <;> rw [h] <;> exact hs
  · intro s hs
    rcases rerunHandler_cases s (effLevel f) (annotateLine f line)
      with h | ⟨_, _, _, _, _, h⟩ <;> rw [h] <;> exact hs
  · intro s hs
    rcases missingFileHandler_cases s (effLevel f) (annotateLine f line)
      with h | ⟨_, _, _, h⟩ <;> rw [h] <;> exact hs
  · intro s hs
    rcases emergencyHandler_cases s (effLevel f) (annotateLine f line)
      with h | ⟨_, _, _, h⟩ <;> rw [h] <;> exact hs
  · intro s nl hs
    exact hs

/-- `applyEffects` keeps the abort latch and the XeTeX/LuaTeX flag in
lock-step (they are only ever set together, by the abort handler). -/
theorem applyEffects_abort_xetex (ctx : Ctx) (st : ScanState) (line : List Char)
    (f : MarkupFilter) (hx : st.abort_markup = st.xetex_luatex_abort) :
    (applyEffects ctx st line f).abort_markup
      = (applyEffects ctx st line f).xetex_luatex_abort := by
  refine applyEffects_pres ctx line f
    (fun s => s.abort_markup = s.xetex_luatex_abort) ?_ ?_ ?_ ?_ ?_ ?_ ?_ st hx
  · intro s hs
    rcases successFlagsUpdate_cases ctx s (effLevel f) with h | ⟨_, _, _, ⟨_, h⟩ | ⟨_, h⟩⟩ <;>
      rw [h] <;> exact hs
  · intro s hs
    rcases abortHandler_cases ctx s f (annotateLine f line) with h | ⟨_, _, h⟩ <;> rw [h]
    exact hs
  · intro s hs
    rcases missfontHandler_cases ctx s (effLevel f) (annotateLine f line)
      with h | ⟨_, _, _, h⟩ <;> rw [h] <;> exact hs
  · intro s hs
    rcases rerunHandler_cases s (effLevel f) (annotateLine f line)
      with h | ⟨_, _, _, _, _, h⟩ <;> rw [h] <;> exact hs
  · intro s hs
    rcases missingFileHandler_cases s (effLevel f) (annotateLine f line)
      with h | ⟨_, _, _, h⟩ <;> rw [h] <;> exact hs
  · intro s hs
    rcases emergencyHandler_cases s (effLevel f) (annotateLine f line)
      with h | ⟨_, _, _, h⟩ <;> rw [h] <;> exact hs
  · intro s nl hs
    exact hs

/-- Once the abort latch is set, only `fatal`/`abort`-severity filters can
be the fired filter (the `continue` at line 339). -/
theorem firedFilter_abort_levels (ctx : Ctx) (st : ScanState) (line : List Char)
    (fs : List MarkupFilter) (f : MarkupFilter)
    (ha : st.abort_markup = true)
    (h : firedFilter ctx st line fs = some (some f)) :
    f.level = "fatal" ∨ f.level = "abort" := by
  induction fs with
  | nil => simp [firedFilter] at h
  | cons g gs ih =>
      simp only [firedFilter] at h
      split at h
      · exact ih h
      · next hcond =>
          rw [not_and] at hcond
          have hlv : ¬(g.level ≠ "fatal" ∧ g.level ≠ "abort") := hcond ha
          split at h
          · cases h
          · exact ih h
          · by_cases hm : (reSearch true g.pat line).isSome = true
            · rw [if_pos hm] at h
              have hgf : g = f := by
                injection h with h1
                injection h1
              subst hgf
              by_cases h1 : g.level = "fatal"
              · exact Or.inl h1
              · by_cases h2 : g.level = "abort"
                · exact Or.inr h2
                · exact absurd ⟨h1, h2⟩ hlv
            · rw [if_neg hm] at h
              exact ih h

/-- A scan step never clears the abort latch. -/
theorem stepLine_abort_mono (ctx : Ctx) (st : ScanState) (raw : List Char) (st' : ScanState)
    (h : stepLine ctx st raw = some st') (ha : st.abort_markup = true) :
    st'.abort_markup = true := by
  obtain ⟨st1, hb, hrest⟩ := stepLine_cases ctx st raw st' h
  have ha1 : st1.abort_markup = true :=
    (bannerPhase_frame ctx st _ st1 hb).2.2.1 ▸ ha
  rcases hrest with ⟨_, rfl⟩ | ⟨_, hf⟩
  · exact ha1
  · rcases filterPhase_cases ctx st1 _ st' hf with ⟨f, _, rfl⟩ | ⟨_, rfl⟩
    · exact applyEffects_abort_mono ctx st1 _ f ha1
    · exact ha1

/-- Evaluation form of the run-spec guard for known ordinal indexes. -/
theorem runGuardSkip_eval (ctx : Ctx) (st : ScanState) (rs : List Char)
    (hne : rs ≠ []) (hcur : st.current_run ≠ []) (ri ci : Nat)
    (hri : listIndex RUN_ORDER rs = some ri)
    (hci : listIndex RUN_ORDER st.current_run = some ci) :
    runGuardSkip ctx st rs =
      if ri > ci then some true
      else if rs = "last".data then
        match dictGet ctx.last_run_for_engine st.current_engine with
        | none => none
        | some lr => some (decide (st.current_run ≠ lr))
      else some false := by
  unfold runGuardSkip
  rw [if_pos ⟨hne, hcur⟩, hri, hci]

/-- A scan step keeps the abort latch equal to the XeTeX/LuaTeX flag. -/
theorem stepLine_abort_xetex (ctx : Ctx) (st : ScanState) (raw : List Char) (st' : ScanState)
    (h : stepLine ctx st raw = some st')
    (hx : st.abort_markup = st.xetex_luatex_abort) :
    st'.abort_markup = st'.xetex_luatex_abort := by
  obtain ⟨st1, hb, hrest⟩ := stepLine_cases ctx st raw st' h
  have hfr := bannerPhase_frame ctx st _ st1 hb
  have hx1 : st1.abort_markup = st1.xetex_luatex_abort := by
    rw [hfr.2.2.1, hfr.2.2.2.1]
    exact hx
  rcases hrest with ⟨_, rfl⟩ | ⟨_, hf⟩
  · exact hx1
  · rcases filterPhase_cases ctx st1 _ st' hf with ⟨f, _, rfl⟩ | ⟨_, rfl⟩
    · exact applyEffects_abort_xetex ctx st1 _ f hx1
    · exact hx1

/-! ## C3 -/

set_option maxRecDepth 200000 in
/-- C3 counterexample: this transcript contains the first abort-severity
filter pattern verbatim (`Fatal fontspec error: "cannot-use-pdftex"`),
but the line is HTML-escaped before classification, the quotes become
`&quot;`, the abort filter never fires, and with
`compilation_status='failed'` the status line is the plain `Failed` —
not the XeTeX/LuaTeX message the claim requires. -/
theorem c3_counterexample :
    (reSearch false abortPat1 "Fatal fontspec error: \"cannot-use-pdftex\"".data).isSome
      = true ∧
    ((compilation_log_display "Fatal fontspec error: \"cannot-use-pdftex\"" 4 "failed").map
      (fun o => decide ("XeTeX/LuaTeX are not supported".data <:+: o.data))) = some false := by
  constructor
  · decide
  · decide

/-- C3 amended: once the abort latch is actually set (it is set exactly
together with the XeTeX/LuaTeX flag, by an abort-severity filter whose
annotated line still matches a fontspec pattern), (1) only
`fatal`/`abort`-severity filters can fire on any line, (2) a scan step
never clears the latch, (3) the latch stays in lock-step with the
XeTeX/LuaTeX flag, and (4) with `compilation_status='failed'` and the
flag set, the derived status is class `fatal` with exactly the
XeTeX/LuaTeX-unsupported message.  Merely containing an abort pattern in
the raw transcript does not guarantee the latch is set (see the
counterexample). -/
theorem c3_amended_abort_latch :
    (∀ ctx st line f, st.abort_markup = true →
        firedFilter ctx st line filters = some (some f) →
        f.level = "fatal" ∨ f.level = "abort") ∧
    (∀ ctx st raw st', stepLine ctx st raw = some st' → st.abort_markup = true →
        st'.abort_markup = true) ∧
    (∀ ctx st raw st', stepLine ctx st raw = some st' →
        st.abort_markup = st.xetex_luatex_abort →
        st'.abort_markup = st'.xetex_luatex_abort) ∧
    (∀ e w, deriveStatus "failed" true e w
        = ("fatal", "Failed: XeTeX/LuaTeX are not supported at current time.")) :=
  ⟨fun ctx st line f ha h => firedFilter_abort_levels ctx st line filters f ha h,
   fun ctx st raw st' h ha => stepLine_abort_mono ctx st raw st' h ha,
   fun ctx st raw st' h hx => stepLine_abort_xetex ctx st raw st' h hx,
   fun _ _ => rfl⟩

set_option maxRecDepth 200000 in
/-- Witness for C3's amended statement at concrete inputs: with the latch
set, the filter that fires on `fatal` is fatal-severity; a concrete step
keeps the latch; the failed-status line is the XeTeX/LuaTeX message. -/
theorem c3_amended_witness :
    ((MarkupFilter.mk "fatal" (litRE "fatal") "").level = "fatal" ∨
     (MarkupFilter.mk "fatal" (litRE "fatal") "").level = "abort") ∧
    ((stepLine (mkCtx "x".data 1 "failed") { initState with abort_markup := true }
        "fatal".data).getD initState).abort_markup = true ∧
    deriveStatus "failed" true false false
      = ("fatal", "Failed: XeTeX/LuaTeX are not supported at current time.") := by
  refine ⟨?_, ?_, c3_amended_abort_latch.2.2.2 false false⟩
  · exact c3_amended_abort_latch.1 (mkCtx "x".data 1 "failed")
      { initState with abort_markup := true } "fatal".data
      (MarkupFilter.mk "fatal" (litRE "fatal") "") rfl (by decide)
  · exact c3_amended_abort_latch.2.1 (mkCtx "x".data 1 "failed")
      { initState with abort_markup := true } "fatal".data
      ((stepLine (mkCtx "x".data 1 "failed") { initState with abort_markup := true }
        "fatal".data).getD initState) (by decide) rfl

/-! ## C10 -/

/-- The generic banner check never clears the last-run flag. -/
theorem genericBanner_last_run_mono (ctx : Ctx) (st : ScanState) (line : List Char)
    (st1 : ScanState) (h : genericBanner ctx st line = some st1)
    (hl : st.last_run = true) : st1.last_run = true := by
  simp only [genericBanner] at h
  split at h
  · cases h; exact hl
  · split at h
    · cases h
    · cases h
      split
      · rfl
      · exact hl

/-- The banner phase never clears the last-run flag. -/
theorem bannerPhase_last_run_mono (ctx : Ctx) (st : ScanState) (line : List Char)
    (st1 : ScanState) (h : bannerPhase ctx st line = some st1)
    (hl : st.last_run = true) : st1.last_run = true := by
  simp only [bannerPhase] at h
  iterate 8 (all_goals try split at h)
  all_goals first
    | cases h
    | exact genericBanner_last_run_mono ctx _ line st1 h hl
    | exact genericBanner_last_run_mono ctx _ line st1 h rfl

/-- `applyEffects` never writes the last-run flag. -/
theorem applyEffects_last_run (ctx : Ctx) (st : ScanState) (line : List Char)
    (f : MarkupFilter) : (applyEffects ctx st line f).last_run = st.last_run := by
  refine applyEffects_pres ctx line f (fun s => s.last_run = st.last_run)
    ?_ ?_ ?_ ?_ ?_ ?_ ?_ st rfl
  · intro s hs
    rcases successFlagsUpdate_cases ctx s (effLevel f) with h | ⟨_, _, _, ⟨_, h⟩ | ⟨_, h⟩⟩ <;>
      rw [h] <;> exact hs
  · intro s hs
    rcases abortHandler_cases ctx s f (annotateLine f line) with h | ⟨_, _, h⟩ <;>
      rw [h] <;> exact hs
  · intro s hs
    rcases missfontHandler_cases ctx s (effLevel f) (annotateLine f line)
      with h | ⟨_, _, _, h⟩ <;> rw [h] <;> exact hs
  · intro s hs
    rcases rerunHandler_cases s (effLevel f) (annotateLine f line)
      with h | ⟨_, _, _, _, _, h⟩ <;> rw [h] <;> exact hs
  · intro s hs
    rcases missingFileHandler_cases s (effLevel f) (annotateLine f line)
      with h | ⟨_, _, _, h⟩ <;> rw [h] <;> exact hs
  · intro s hs
    rcases emergencyHandler_cases s (effLevel f) (annotateLine f line)
      with h | ⟨_, _, _, h⟩ <;> rw [h] <;> exact hs
  · intro s nl hs
    exact hs

/-- A scan step never clears the last-run flag. -/
theorem stepLine_last_run_mono (ctx : Ctx) (st : ScanState) (raw : List Char)
    (st' : ScanState) (h : stepLine ctx st raw = some st')
    (hl : st.last_run = true) : st'.last_run = true := by
  obtain ⟨st1, hb, hrest⟩ := stepLine_cases ctx st raw st' h
  have hl1 : st1.last_run = true := bannerPhase_last_run_mono ctx st _ st1 hb hl
  rcases hrest with ⟨_, rfl⟩ | ⟨_, hf⟩
  · exact hl1
  · rcases filterPhase_cases ctx st1 _ st' hf with ⟨f, _, rfl⟩ | ⟨_, rfl⟩
    · rw [applyEffects_last_run]
      exact hl1
    · exact hl1

/-- Filter selection never reads the last-run flag. -/
theorem firedFilter_last_run_irrel (ctx : Ctx) (st : ScanState) (line : List Char)
    (b : Bool) (fs : List MarkupFilter) :
    firedFilter ctx { st with last_run := b } line fs = firedFilter ctx st line fs := by
  induction fs with
  | nil => rfl
  | cons g gs ih =>
      simp only [firedFilter, runGuardSkip]
      rw [ih]

/-- The `last` run-spec guard is decided per engine: it passes exactly
when the current run equals the current engine's recorded last ordinal
(the global last-run flag plays no role). -/
theorem runGuardSkip_last_char (ctx : Ctx) (st : ScanState) (ci : Nat)
    (hcur : st.current_run ≠ [])
    (hci : listIndex RUN_ORDER st.current_run = some ci) :
    runGuardSkip ctx st "last".data =
      match dictGet ctx.last_run_for_engine st.current_engine with
      | none => none
      | some lr => some (decide (st.current_run ≠ lr)) := by
  rw [runGuardSkip_eval ctx st _ (by decide) hcur 0 ci (by decide) hci]
  rw [if_neg (by omega), if_pos rfl]

set_option maxRecDepth 1000000 in
/-- C10 counterexample: in a transcript where tex's only (hence last) run
banner is followed by latex's first of two runs, the per-scan last-run
flag is already `true` while scanning latex's non-final first run — yet
on `Citation foo undefined` the filter that fires is the
`ignore`-severity `first`-spec filter, not a `last`-activation filter:
`last` activation is decided by the per-engine comparison, not by the
flag. -/
theorem c10_counterexample :
    splitlines "~~~ Running tex for the first time ~~~\n~~~ Running latex for the first time ~~~\nCitation foo undefined\n~~~ Running latex for the second time ~~~".data
      = ["~~~ Running tex for the first time ~~~".data,
         "~~~ Running latex for the first time ~~~".data,
         "Citation foo undefined".data,
         "~~~ Running latex for the second time ~~~".data] ∧
    ((scanLines (mkCtx "~~~ Running tex for the first time ~~~\n~~~ Running latex for the first time ~~~\nCitation foo undefined\n~~~ Running latex for the second time ~~~".data 11 "failed")
        initState
        ["~~~ Running tex for the first time ~~~".data,
         "~~~ Running latex for the first time ~~~".data]).getD initState).last_run = true ∧
    ((scanLines (mkCtx "~~~ Running tex for the first time ~~~\n~~~ Running latex for the first time ~~~\nCitation foo undefined\n~~~ Running latex for the second time ~~~".data 11 "failed")
        initState
        ["~~~ Running tex for the first time ~~~".data,
         "~~~ Running latex for the first time ~~~".data]).getD initState).current_run
      = "first".data ∧
    ((scanLines (mkCtx "~~~ Running tex for the first time ~~~\n~~~ Running latex for the first time ~~~\nCitation foo undefined\n~~~ Running latex for the second time ~~~".data 11 "failed")
        initState
        ["~~~ Running tex for the first time ~~~".data,
         "~~~ Running latex for the first time ~~~".data]).getD initState).current_engine
      = "latex".data ∧
    dictGet (mkCtx "~~~ Running tex for the first time ~~~\n~~~ Running latex for the first time ~~~\nCitation foo undefined\n~~~ Running latex for the second time ~~~".data 11 "failed").last_run_for_engine
      "latex".data = some "second".data ∧
    firedFilter (mkCtx "~~~ Running tex for the first time ~~~\n~~~ Running latex for the first time ~~~\nCitation foo undefined\n~~~ Running latex for the second time ~~~".data 11 "failed")
      ((scanLines (mkCtx "~~~ Running tex for the first time ~~~\n~~~ Running latex for the first time ~~~\nCitation foo undefined\n~~~ Running latex for the second time ~~~".data 11 "failed")
        initState
        ["~~~ Running tex for the first time ~~~".data,
         "~~~ Running latex for the first time ~~~".data]).getD initState)
      (htmlEscape "Citation foo undefined".data) filters
      = some (some (MarkupFilter.mk "ignore" citationRE "first")) := by
  refine ⟨by decide, by decide, by decide, by decide, by decide, by decide⟩

/-- C10 amended: the last-run flag is indeed monotonic (starts `false`,
set when an engine's final recorded run banner is scanned, never
cleared) — but it is dead state: filter selection never reads it, and a
`last`-activation filter applies exactly when the current run equals the
current engine's own recorded last ordinal, so after one engine's last
run, `last` filters do not fire on another engine's non-final run. -/
theorem c10_amended_last_run_flag :
    initState.last_run = false ∧
    (∀ ctx st raw st', stepLine ctx st raw = some st' → st.last_run = true →
        st'.last_run = true) ∧
    (∀ ctx st line b, firedFilter ctx { st with last_run := b } line filters
        = firedFilter ctx st line filters) ∧
    (∀ ctx st ci, st.current_run ≠ [] → listIndex RUN_ORDER st.current_run = some ci →
        runGuardSkip ctx st "last".data =
          match dictGet ctx.last_run_for_engine st.current_engine with
          | none => none
          | some lr => some (decide (st.current_run ≠ lr))) :=
  ⟨rfl,
   fun ctx st raw st' h hl => stepLine_last_run_mono ctx st raw st' h hl,
   fun ctx st line b => firedFilter_last_run_irrel ctx st line b filters,
   fun ctx st ci hcur hci => runGuardSkip_last_char ctx st ci hcur hci⟩

set_option maxRecDepth 200000 in
/-- Witness for C10's amended statement at concrete inputs. -/
theorem c10_amended_witness :
    ((stepLine (mkCtx "~~~ Running tex for the first time ~~~".data 2 "failed")
        { initState with last_run := true }
        "~~~ Running tex for the first time ~~~".data).getD initState).last_run = true ∧
    firedFilter (mkCtx "x".data 2 "failed") { initState with last_run := true } "warning".data
        filters
      = firedFilter (mkCtx "x".data 2 "failed") initState "warning".data filters ∧
    runGuardSkip (mkCtx "x".data 2 "failed")
        { initState with current_engine := "latex".data, current_run := "first".data }
        "last".data
      = match dictGet (mkCtx "x".data 2 "failed").last_run_for_engine "latex".data with
        | none => none
        | some lr => some (decide ("first".data ≠ lr)) := by
  refine ⟨?_, ?_, ?_⟩
  · exact c10_amended_last_run_flag.2.1
      (mkCtx "~~~ Running tex for the first time ~~~".data 2 "failed")
      { initState with last_run := true } "~~~ Running tex for the first time ~~~".data
      ((stepLine (mkCtx "~~~ Running tex for the first time ~~~".data 2 "failed")
        { initState with last_run := true }
        "~~~ Running tex for the first time ~~~".data).getD initState)
      (by decide) rfl
  · exact c10_amended_last_run_flag.2.2.1 (mkCtx "x".data 2 "failed") initState
      "warning".data true
  · exact c10_amended_last_run_flag.2.2.2 (mkCtx "x".data 2 "failed")
      { initState with current_engine := "latex".data, current_run := "first".data }
      1 (by decide) (by decide)

/-! ## C4 -/

/-- During an engine's first of two runs, no filter whose run spec is
`second` or `last` can be the fired filter. -/
theorem firedFilter_first_run_excludes (ctx : Ctx) (st : ScanState) (line : List Char)
    (fs : List MarkupFilter) (f : MarkupFilter)
    (hrun : st.current_run = "first".data)
    (hlast : dictGet ctx.last_run_for_engine st.current_engine = some "second".data)
    (h : firedFilter ctx st line fs = some (some f)) :
    f.runSpec ≠ "second" ∧ f.runSpec ≠ "last" := by
  induction fs with
  | nil => simp [firedFilter] at h
  | cons g gs ih =>
      simp only [firedFilter] at h
      split at h
      · exact ih h
      · split at h
        · cases h
        · exact ih h
        · next hguard =>
            by_cases hm : (reSearch true g.pat line).isSome = true
            · rw [if_pos hm] at h
              have hgf : g = f := by
                injection h with h1
                injection h1
              subst hgf
              constructor
              · intro hspec
                rw [hspec] at hguard
                rw [if_neg (by decide : ¬("second" : String) = "")] at hguard
                rw [runGuardSkip_eval ctx st _ (by decide)
                  (by rw [hrun]; decide) 2 1 (by decide) (by rw [hrun]; decide)] at hguard
                simp at hguard
              · intro hspec
                rw [hspec] at hguard
                rw [if_neg (by decide : ¬("last" : String) = "")] at hguard
                rw [runGuardSkip_eval ctx st _ (by decide)
                  (by rw [hrun]; decide) 0 1 (by decide) (by rw [hrun]; decide)] at hguard
                rw [if_neg (by omega), if_pos rfl, hlast] at hguard
                rw [hrun] at hguard
                simp at hguard
            · rw [if_neg hm] at h
              exact ih h

/-- C4: with exactly two runs of the same engine (the engine's recorded
last ordinal is `second`), (1) on a line of the first run neither a
`second`-spec nor a `last`-spec filter can fire, (2) on the second run
both the `second` spec and the `last` spec pass the activation guard, and
(3) concretely, with two latex runs, the `warning`/`second` filter and
the `Citation…undefined`/`last` filter are the filters that fire on
matching lines of the second run. -/
theorem c4_second_and_last_activation :
    (∀ ctx st line f, st.current_run = "first".data →
        dictGet ctx.last_run_for_engine st.current_engine = some "second".data →
        firedFilter ctx st line filters = some (some f) →
        f.runSpec ≠ "second" ∧ f.runSpec ≠ "last") ∧
    (∀ ctx st, st.current_run = "second".data →
        dictGet ctx.last_run_for_engine st.current_engine = some "second".data →
        runGuardSkip ctx st "second".data = some false ∧
        runGuardSkip ctx st "last".data = some false) ∧
    (firedFilter
        (mkCtx "~~~ Running latex for the first time ~~~\n~~~ Running latex for the second time ~~~".data 7 "succeeded")
        { initState with current_engine := "latex".data, current_run := "second".data }
        (htmlEscape "warning: foo".data) filters
      = some (some (MarkupFilter.mk "warning" (litRE "warning") "second")) ∧
     firedFilter
        (mkCtx "~~~ Running latex for the first time ~~~\n~~~ Running latex for the second time ~~~".data 7 "succeeded")
        { initState with current_engine := "latex".data, current_run := "second".data }
        (htmlEscape "Citation x undefined".data) filters
      = some (some (MarkupFilter.mk "warning" citationRE "last"))) := by
  refine ⟨?_, ?_, by decide, by decide⟩
  · intro ctx st line f hrun hlast h
    exact firedFilter_first_run_excludes ctx st line filters f hrun hlast h
  · intro ctx st hrun hlast
    constructor
    · rw [runGuardSkip_eval ctx st _ (by decide) (by rw [hrun]; decide) 2 2 (by decide)
        (by rw [hrun]; decide)]
      rw [if_neg (by omega), if_neg (by decide)]
    · rw [runGuardSkip_eval ctx st _ (by decide) (by rw [hrun]; decide) 0 2 (by decide)
        (by rw [hrun]; decide)]
      rw [if_neg (by omega), if_pos rfl, hlast, hrun]
      simp

set_option maxRecDepth 200000 in
/-- Witness for C4 at concrete inputs: on the first of two latex runs the
fired filter for `warning: foo` is the `ignore`/`first` filter — neither
`second`- nor `last`-spec — and the guard conclusions hold concretely. -/
theorem c4_witness :
    ((MarkupFilter.mk "ignore" (litRE "warning") "first").runSpec ≠ "second" ∧
     (MarkupFilter.mk "ignore" (litRE "warning") "first").runSpec ≠ "last") ∧
    (runGuardSkip
        (mkCtx "~~~ Running latex for the first time ~~~\n~~~ Running latex for the second time ~~~".data 7 "succeeded")
        { initState with current_engine := "latex".data, current_run := "second".data }
        "second".data = some false ∧
     runGuardSkip
        (mkCtx "~~~ Running latex for the first time ~~~\n~~~ Running latex for the second time ~~~".data 7 "succeeded")
        { initState with current_engine := "latex".data, current_run := "second".data }
        "last".data = some false) := by
  constructor
  · exact c4_second_and_last_activation.1
      (mkCtx "~~~ Running latex for the first time ~~~\n~~~ Running latex for the second time ~~~".data 7 "succeeded")
      { initState with current_engine := "latex".data, current_run := "first".data }
      (htmlEscape "warning: foo".data)
      (MarkupFilter.mk "ignore" (litRE "warning") "first") rfl (by decide) (by decide)
  · exact c4_second_and_last_activation.2.1
      (mkCtx "~~~ Running latex for the first time ~~~\n~~~ Running latex for the second time ~~~".data 7 "succeeded")
      { initState with current_engine := "latex".data, current_run := "second".data }
      rfl (by decide)

/-! ## C7 -/

set_option maxRecDepth 1000000 in
/-- C7 counterexample: `fatal: file foo.tex not found` occurs during
latex's non-final first run and matches the missing-file pattern, but the
higher-priority `fatal` filter fires first, so the missing-file handler
(which requires a danger-severity fire) never runs: the scan ends with
the missing-file latch unset and an empty error summary. -/
theorem c7_counterexample :
    splitlines "~~~ Running latex for the first time ~~~\nfatal: file foo.tex not found\n~~~ Running latex for the second time ~~~\nok".data
      = ["~~~ Running latex for the first time ~~~".data,
         "fatal: file foo.tex not found".data,
         "~~~ Running latex for the second time ~~~".data,
         "ok".data] ∧
    (reSearch true fileNotFoundRE (htmlEscape "fatal: file foo.tex not found".data)).isSome
      = true ∧
    ((scanLines (mkCtx "~~~ Running latex for the first time ~~~\nfatal: file foo.tex not found\n~~~ Running latex for the second time ~~~\nok".data 8 "failed")
        initState ["~~~ Running latex for the first time ~~~".data]).getD initState).current_run
      = "first".data ∧
    dictGet (mkCtx "~~~ Running latex for the first time ~~~\nfatal: file foo.tex not found\n~~~ Running latex for the second time ~~~\nok".data 8 "failed").last_run_for_engine
      "latex".data = some "second".data ∧
    firedFilter (mkCtx "~~~ Running latex for the first time ~~~\nfatal: file foo.tex not found\n~~~ Running latex for the second time ~~~\nok".data 8 "failed")
      ((scanLines (mkCtx "~~~ Running latex for the first time ~~~\nfatal: file foo.tex not found\n~~~ Running latex for the second time ~~~\nok".data 8 "failed")
        initState ["~~~ Running latex for the first time ~~~".data]).getD initState)
      (htmlEscape "fatal: file foo.tex not found".data) filters
      = some (some (MarkupFilter.mk "fatal" (litRE "fatal") "")) ∧
    ((scanLines (mkCtx "~~~ Running latex for the first time ~~~\nfatal: file foo.tex not found\n~~~ Running latex for the second time ~~~\nok".data 8 "failed")
        initState
        ["~~~ Running latex for the first time ~~~".data,
         "fatal: file foo.tex not found".data,
         "~~~ Running latex for the second time ~~~".data,
         "ok".data]).getD initState).missing_file = false ∧
    ((scanLines (mkCtx "~~~ Running latex for the first time ~~~\nfatal: file foo.tex not found\n~~~ Running latex for the second time ~~~\nok".data 8 "failed")
        initState
        ["~~~ Running latex for the first time ~~~".data,
         "fatal: file foo.tex not found".data,
         "~~~ Running latex for the second time ~~~".data,
         "ok".data]).getD initState).error_summary = [] := by
  refine ⟨by decide, by decide, by decide, by decide, by decide, by decide, by decide⟩

/-- C7 amended: whenever the fired filter is danger-severity and its
annotated line matches `file (.*) not found`, with the missing-file latch
unset, the filter phase appends the missing-file entry and sets the
latch — with no hypothesis that the current run is the engine's final
run (the handler is evaluated on every run).  The hypothesis states the
run is NOT the engine's final one. -/
theorem c7_amended_missing_file_not_gated (ctx : Ctx) (st : ScanState) (line : List Char)
    (f : MarkupFilter) (st' : ScanState)
    (hnonfinal : dictGet ctx.last_run_for_engine st.current_engine ≠ some st.current_run)
    (hmf : st.missing_file = false)
    (hfired : firedFilter ctx st line filters = some (some f))
    (hlvl : effLevel f = "danger")
    (hmatch : (reSearch true fileNotFoundRE (annotateLine f line)).isSome = true)
    (hstep : filterPhase ctx st line = some st') :
    st'.missing_file = true ∧ missingFileMarker <:+: st'.error_summary := by
  have hflevel : f.level = "danger" := by
    by_cases h : f.level = "abort"
    · rw [effLevel, if_pos h] at hlvl
      exact absurd hlvl (by decide)
    · rw [effLevel, if_neg h] at hlvl
      exact hlvl
  rcases filterPhase_cases ctx st line st' hstep with ⟨g, hg, rfl⟩ | ⟨hnone, _⟩
  · have hgf : g = f := by
      rw [hfired] at hg
      injection hg with h1
      injection h1 with h2
      exact h2.symm
    subst hgf
    -- chase the stages of applyEffects
    have s1cases := successFlagsUpdate_cases ctx st (effLevel g)
    have hs1 : (successFlagsUpdate ctx st (effLevel g)).missing_file = false ∧
        (successFlagsUpdate ctx st (effLevel g)).error_summary = st.error_summary := by
      rcases s1cases with h | ⟨_, _, _, ⟨_, h⟩ | ⟨_, h⟩⟩ <;> rw [h] <;> exact ⟨hmf, rfl⟩
    have hs2 : (abortHandler ctx (successFlagsUpdate ctx st (effLevel g)) g
        (annotateLine g line)) = successFlagsUpdate ctx st (effLevel g) := by
      rcases abortHandler_cases ctx (successFlagsUpdate ctx st (effLevel g)) g
          (annotateLine g line) with h | ⟨_, habort, _⟩
      · exact h
      · rw [hflevel] at habort
        exact absurd habort (by decide)
    have hs3 : (missfontHandler ctx (successFlagsUpdate ctx st (effLevel g)) (effLevel g)
        (annotateLine g line)) = successFlagsUpdate ctx st (effLevel g) := by
      rcases missfontHandler_cases ctx (successFlagsUpdate ctx st (effLevel g)) (effLevel g)
          (annotateLine g line) with h | ⟨_, hfatal, _, _⟩
      · exact h
      · rw [hlvl] at hfatal
        exact absurd hfatal (by decide)
    have hs4 := rerunHandler_cases (successFlagsUpdate ctx st (effLevel g)) (effLevel g)
        (annotateLine g line)
    -- after the rerun handler the latch and summary satisfy:
    have hs4' : (rerunHandler (successFlagsUpdate ctx st (effLevel g)) (effLevel g)
        (annotateLine g line)).missing_file = false ∧
        ((rerunHandler (successFlagsUpdate ctx st (effLevel g)) (effLevel g)
          (annotateLine g line)).error_summary = st.error_summary ∨
         (rerunHandler (successFlagsUpdate ctx st (effLevel g)) (effLevel g)
          (annotateLine g line)).error_summary
           = esAppend st.error_summary rerunEntry) := by
      rcases hs4 with h | ⟨_, _, _, _, _, h⟩ <;> rw [h]
      · exact ⟨hs1.1, Or.inl hs1.2⟩
      · exact ⟨hs1.1, Or.inr (by rw [hs1.2])⟩
    have hs5 := missingFileHandler_cases (rerunHandler (successFlagsUpdate ctx st (effLevel g))
        (effLevel g) (annotateLine g line)) (effLevel g) (annotateLine g line)
    rcases hs5 with h5 | ⟨_, _, _, h5⟩
    · -- the handler must fire: its condition holds, so the no-op case is absurd
      exfalso
      have hcond : (rerunHandler (successFlagsUpdate ctx st (effLevel g)) (effLevel g)
          (annotateLine g line)).missing_file = false ∧ effLevel g = "danger" ∧
          (reSearch true fileNotFoundRE (annotateLine g line)).isSome = true :=
        ⟨hs4'.1, hlvl, hmatch⟩
      have h5' := h5
      unfold missingFileHandler at h5'
      rw [if_pos hcond] at h5'
      have hproj := congrArg ScanState.missing_file h5'
      simp [hs4'.1] at hproj
    · -- the handler fired: chase through the emergency handler and the final append
      have hmf5 : (missingFileHandler (rerunHandler (successFlagsUpdate ctx st (effLevel g))
          (effLevel g) (annotateLine g line)) (effLevel g)
          (annotateLine g line)).missing_file = true := by
        rw [h5]
      have hes5 : missingFileMarker <:+:
          (missingFileHandler (rerunHandler (successFlagsUpdate ctx st (effLevel g))
            (effLevel g) (annotateLine g line)) (effLevel g)
            (annotateLine g line)).error_summary := by
        rw [h5]
        show missingFileMarker <:+: esAppend _ (missingFileEntry (annotateLine g line))
        unfold esAppend
        have hmker : missingFileMarker <:+: missingFileEntry (annotateLine g line) := by
          unfold missingFileEntry
          have h1 : missingFileMarker <:+:
              "<li>\tA file required by your submission was not found.\n\t".data := by decide
          exact h1.trans
            (((List.prefix_append _ _).trans (List.prefix_append _ _)).isInfix)
        exact hmker.trans (List.suffix_append _ _).isInfix
      have hs6 := emergencyHandler_cases (missingFileHandler (rerunHandler
          (successFlagsUpdate ctx st (effLevel g)) (effLevel g) (annotateLine g line))
          (effLevel g) (annotateLine g line)) (effLevel g) (annotateLine g line)
      rcases hs6 with h6 | ⟨hmf6, _, _, _⟩
      · constructor
        · have hred : (applyEffects ctx st line g).missing_file
              = (emergencyHandler (missingFileHandler (rerunHandler (missfontHandler ctx
                  (abortHandler ctx (successFlagsUpdate ctx st (effLevel g)) g
                    (annotateLine g line))
                  (effLevel g) (annotateLine g line)) (effLevel g) (annotateLine g line))
                  (effLevel g) (annotateLine g line)) (effLevel g)
                  (annotateLine g line)).missing_file := by
            unfold applyEffects
            rfl
          rw [hred, hs2, hs3, h6]
          exact hmf5
        · have hred : (applyEffects ctx st line g).error_summary
              = (emergencyHandler (missingFileHandler (rerunHandler (missfontHandler ctx
                  (abortHandler ctx (successFlagsUpdate ctx st (effLevel g)) g
                    (annotateLine g line))
                  (effLevel g) (annotateLine g line)) (effLevel g) (annotateLine g line))
                  (effLevel g) (annotateLine g line)) (effLevel g)
                  (annotateLine g line)).error_summary := by
            unfold applyEffects
            rfl
          rw [hred, hs2, hs3, h6]
          exact hes5
      · rw [hmf5] at hmf6
        exact absurd hmf6 (by decide)
  · rw [hfired] at hnone
    cases hnone

set_option maxRecDepth 400000 in
/-- Witness for C7's amended statement: `file a.tex not found` during
latex's non-final first run fires the danger missing-file filter and the
entry is appended. -/
theorem c7_amended_witness :
    (((filterPhase
        (mkCtx "~~~ Running latex for the first time ~~~\n~~~ Running latex for the second time ~~~".data 9 "failed")
        { initState with current_engine := "latex".data, current_run := "first".data }
        (htmlEscape "file a.tex not found".data)).getD initState).missing_file = true) ∧
    missingFileMarker <:+:
      ((filterPhase
        (mkCtx "~~~ Running latex for the first time ~~~\n~~~ Running latex for the second time ~~~".data 9 "failed")
        { initState with current_engine := "latex".data, current_run := "first".data }
        (htmlEscape "file a.tex not found".data)).getD initState).error_summary :=
  c7_amended_missing_file_not_gated
    (mkCtx "~~~ Running latex for the first time ~~~\n~~~ Running latex for the second time ~~~".data 9 "failed")
    { initState with current_engine := "latex".data, current_run := "first".data }
    (htmlEscape "file a.tex not found".data)
    (MarkupFilter.mk "danger" fileNotFoundRE "")
    ((filterPhase
        (mkCtx "~~~ Running latex for the first time ~~~\n~~~ Running latex for the second time ~~~".data 9 "failed")
        { initState with current_engine := "latex".data, current_run := "first".data }
        (htmlEscape "file a.tex not found".data)).getD initState)
    (by decide) rfl (by decide) rfl (by decide) (by decide)

/-! ## C5 -/

/-- One scan step keeps both final-run flags `false` when its line
satisfies `stepOkForSuccess`. -/
theorem stepLine_flags_false (ctx : Ctx) (st : ScanState) (raw : List Char) (st' : ScanState)
    (h : stepLine ctx st raw = some st')
    (hok : stepOkForSuccess ctx st raw = true)
    (he : st.final_run_had_errors = false) (hw : st.final_run_had_warnings = false) :
    st'.final_run_had_errors = false ∧ st'.final_run_had_warnings = false := by
  obtain ⟨st1, hb, hrest⟩ := stepLine_cases ctx st raw st' h
  have hfr := bannerPhase_frame ctx st _ st1 hb
  have he1 : st1.final_run_had_errors = false := hfr.2.2.2.2.2.2.2.2.1 ▸ he
  have hw1 : st1.final_run_had_warnings = false := hfr.2.2.2.2.2.2.2.2.2 ▸ hw
  rcases hrest with ⟨_, rfl⟩ | ⟨hme, hf⟩
  · exact ⟨he1, hw1⟩
  · rcases filterPhase_cases ctx st1 _ st' hf with ⟨f, hfired, rfl⟩ | ⟨_, rfl⟩
    · -- extract the side conditions for this fired filter from `hok`
      simp only [stepOkForSuccess, hb, hme, hfired, reduceIte] at hok
      have hokA : (decide (st1.current_engine = ctx.success_last_engine) &&
          decide (st1.current_run = ctx.success_last_run) &&
          (decide (effLevel f = "warning") || decide (effLevel f = "danger") ||
           decide (effLevel f = "fatal"))) = false := by
        cases hA : (decide (st1.current_engine = ctx.success_last_engine) &&
            decide (st1.current_run = ctx.success_last_run) &&
            (decide (effLevel f = "warning") || decide (effLevel f = "danger") ||
             decide (effLevel f = "fatal"))) with
        | false => rfl
        | true =>
            rw [hA] at hok
            simp at hok
      have hokB : (decide (st1.rerun_markup = false) &&
          decide (effLevel f = "danger") &&
          (reSearch false rerunAltRE (annotateLine f (htmlEscape raw))).isSome &&
          (reSearch false fourPassesRE (annotateLine f (htmlEscape raw))).isNone &&
          (reSearch false oberdiekRE (annotateLine f (htmlEscape raw))).isNone) = false := by
        cases hB : (decide (st1.rerun_markup = false) &&
            decide (effLevel f = "danger") &&
            (reSearch false rerunAltRE (annotateLine f (htmlEscape raw))).isSome &&
            (reSearch false fourPassesRE (annotateLine f (htmlEscape raw))).isNone &&
            (reSearch false oberdiekRE (annotateLine f (htmlEscape raw))).isNone) with
        | false => rfl
        | true =>
            rw [hokA, hB] at hok
            simp at hok
      have hP := applyEffects_pres ctx (htmlEscape raw) f
        (fun s => s.final_run_had_errors = false ∧ s.final_run_had_warnings = false ∧
                  s.rerun_markup = st1.rerun_markup ∧
                  s.current_engine = st1.current_engine ∧ s.current_run = st1.current_run)
        ?_ ?_ ?_ ?_ ?_ ?_ ?_ st1 ⟨he1, hw1, rfl, rfl, rfl⟩
      · exact ⟨hP.1, hP.2.1⟩
      · intro s hs
        rcases successFlagsUpdate_cases ctx s (effLevel f)
          with hq | ⟨_, heng, hrun, hbad⟩
        · rw [hq]; exact hs
        · exfalso
          have heng1 : st1.current_engine = ctx.success_last_engine := hs.2.2.2.1 ▸ heng
          have hrun1 : st1.current_run = ctx.success_last_run := hs.2.2.2.2 ▸ hrun
          have hcontra : (decide (st1.current_engine = ctx.success_last_engine) &&
              decide (st1.current_run = ctx.success_last_run) &&
              (decide (effLevel f = "warning") || decide (effLevel f = "danger") ||
               decide (effLevel f = "fatal"))) = true := by
            rcases hbad with ⟨hl, _⟩ | ⟨hl, _⟩
            · simp [heng1, hrun1, hl]
            · rcases hl with hl | hl <;> simp [heng1, hrun1, hl]
          rw [hokA] at hcontra
          exact absurd hcontra (by decide)
      · intro s hs
        rcases abortHandler_cases ctx s f (annotateLine f (htmlEscape raw))
          with hq | ⟨_, _, hq⟩ <;> rw [hq] <;> exact hs
      · intro s hs
        rcases missfontHandler_cases ctx s (effLevel f) (annotateLine f (htmlEscape raw))
          with hq | ⟨_, _, _, hq⟩ <;> rw [hq] <;> exact hs
      · intro s hs
        rcases rerunHandler_cases s (effLevel f) (annotateLine f (htmlEscape raw))
          with hq | ⟨hlatch, hlvl, halt, h4p, hob, hq⟩
        · rw [hq]; exact hs
        · exfalso
          have hlatch1 : st1.rerun_markup = false := hs.2.2.1 ▸ hlatch
          have hcontra : (decide (st1.rerun_markup = false) &&
              decide (effLevel f = "danger") &&
              (reSearch false rerunAltRE (annotateLine f (htmlEscape raw))).isSome &&
              (reSearch false fourPassesRE (annotateLine f (htmlEscape raw))).isNone &&
              (reSearch false oberdiekRE (annotateLine f (htmlEscape raw))).isNone) = true := by
            simp [hlatch1, hlvl, halt, h4p, hob]
          rw [hokB] at hcontra
          exact absurd hcontra (by decide)
      · intro s hs
        rcases missingFileHandler_cases s (effLevel f) (annotateLine f (htmlEscape raw))
          with hq | ⟨_, _, _, hq⟩ <;> rw [hq] <;> exact hs
      · intro s hs
        rcases emergencyHandler_cases s (effLevel f) (annotateLine f (htmlEscape raw))
          with hq | ⟨_, _, _, hq⟩ <;> rw [hq] <;> exact hs
      · intro s nl hs
        exact hs
    · exact ⟨he1, hw1⟩

/-- The whole scan keeps both final-run flags `false` when every step
satisfies `stepOkForSuccess`. -/
theorem scanLines_flags_false (ctx : Ctx) :
    ∀ (lines : List (List Char)) (st stF : ScanState),
      scanLines ctx st lines = some stF →
      stepsOkForSuccess ctx st lines = true →
      st.final_run_had_errors = false → st.final_run_had_warnings = false →
      stF.final_run_had_errors = false ∧ stF.final_run_had_warnings = false := by
  intro lines
  induction lines with
  | nil =>
      intro st stF h _ he hw
      simp only [scanLines] at h
      cases h
      exact ⟨he, hw⟩
  | cons l ls ih =>
      intro st stF h hok he hw
      simp only [scanLines] at h
      rcases hs : stepLine ctx st l with _ | st1
      · rw [hs] at h; cases h
      · rw [hs] at h
        simp only [stepsOkForSuccess, hs, Bool.and_eq_true] at hok
        have hstep := stepLine_flags_false ctx st l st1 hs hok.1 he hw
        exact ih st1 stF h hok.2 hstep.1 hstep.2

/-- C5 amended: with `compilation_status='succeeded'`, if along the scan
no warning/danger/fatal-severity filter fires on a line of the
status-bearing final engine/run AND the rerun-needed handler never
triggers (on any run), then the output contains exactly the success
status line `Succeeded!` in a `tex-success` span. -/
theorem c5_amended_success_status (log : String) (sid : Int) (out : String)
    (hnl : (reSearch false noLogRE log.data).isNone = true)
    (hok : stepsOkForSuccess (mkCtx log.data sid "succeeded") initState
        (splitlines log.data) = true)
    (hout : compilation_log_display log sid "succeeded" = some out) :
    statusLine "success" "Succeeded!" <:+: out.data := by
  have hcond : (reSearch false noLogRE log.data).isSome = true → False := by
    intro hs
    rw [Option.isNone_iff_eq_none] at hnl
    rw [hnl] at hs
    simp at hs
  unfold compilation_log_display at hout
  rw [if_neg hcond] at hout
  rcases hscan : scanLines (mkCtx log.data sid "succeeded") initState (splitlines log.data)
    with _ | stF
  · rw [hscan] at hout; cases hout
  · rw [hscan] at hout
    have hflags := scanLines_flags_false (mkCtx log.data sid "succeeded")
      (splitlines log.data) initState stF hscan hok rfl rfl
    have hout2 : out = String.mk (assemble (mkCtx log.data sid "succeeded") stF) := by
      have h2 := hout.symm
      exact Option.some.inj h2
    rw [hout2]
    show statusLine "success" "Succeeded!" <:+: assemble (mkCtx log.data sid "succeeded") stF
    have hcs : (mkCtx log.data sid "succeeded").compilation_status = "succeeded" := rfl
    have hds : deriveStatus "succeeded" stF.xetex_luatex_abort false false
        = ("success", "Succeeded!") := rfl
    simp only [assemble, hcs, hflags.1, hflags.2, hds]
    exact ((((List.suffix_append _ _).isInfix.trans
      (List.prefix_append _ _).isInfix).trans
      (List.prefix_append _ _).isInfix).trans
      (List.prefix_append _ _).isInfix).trans
      (List.prefix_append _ _).isInfix

set_option maxRecDepth 1000000 in
/-- C5 counterexample: `compilation_status='succeeded'`, and no
warning/danger/fatal-severity filter fires on any line of the final
engine/run (latex/first) — lines 1-2 belong to tex, line 3 fires the
info filter, line 4 fires nothing — yet the rerun handler fired on tex's
last run and set the final-run warnings flag, so the status is
`Succeeded with warnings…`, not `Succeeded!`. -/
theorem c5_counterexample :
    splitlines "~~~ Running tex for the first time ~~~\nrerun\n~~~ Running latex for the first time ~~~\nok line".data
      = ["~~~ Running tex for the first time ~~~".data, "rerun".data,
         "~~~ Running latex for the first time ~~~".data, "ok line".data] ∧
    (mkCtx "~~~ Running tex for the first time ~~~\nrerun\n~~~ Running latex for the first time ~~~\nok line".data 12 "succeeded").success_last_engine
      = "latex".data ∧
    (mkCtx "~~~ Running tex for the first time ~~~\nrerun\n~~~ Running latex for the first time ~~~\nok line".data 12 "succeeded").success_last_run
      = "first".data ∧
    ((bannerPhase (mkCtx "~~~ Running tex for the first time ~~~\nrerun\n~~~ Running latex for the first time ~~~\nok line".data 12 "succeeded")
        initState
        (htmlEscape "~~~ Running tex for the first time ~~~".data)).getD initState).current_engine
      = "tex".data ∧
    ((bannerPhase (mkCtx "~~~ Running tex for the first time ~~~\nrerun\n~~~ Running latex for the first time ~~~\nok line".data 12 "succeeded")
        ((scanLines (mkCtx "~~~ Running tex for the first time ~~~\nrerun\n~~~ Running latex for the first time ~~~\nok line".data 12 "succeeded")
          initState ["~~~ Running tex for the first time ~~~".data]).getD initState)
        (htmlEscape "rerun".data)).getD initState).current_engine = "tex".data ∧
    firedFilter (mkCtx "~~~ Running tex for the first time ~~~\nrerun\n~~~ Running latex for the first time ~~~\nok line".data 12 "succeeded")
      ((bannerPhase (mkCtx "~~~ Running tex for the first time ~~~\nrerun\n~~~ Running latex for the first time ~~~\nok line".data 12 "succeeded")
        ((scanLines (mkCtx "~~~ Running tex for the first time ~~~\nrerun\n~~~ Running latex for the first time ~~~\nok line".data 12 "succeeded")
          initState ["~~~ Running tex for the first time ~~~".data, "rerun".data]).getD initState)
        (htmlEscape "~~~ Running latex for the first time ~~~".data)).getD initState)
      (htmlEscape "~~~ Running latex for the first time ~~~".data) filters
      = some (some (MarkupFilter.mk "info" bannerInfoRE "")) ∧
    firedFilter (mkCtx "~~~ Running tex for the first time ~~~\nrerun\n~~~ Running latex for the first time ~~~\nok line".data 12 "succeeded")
      ((bannerPhase (mkCtx "~~~ Running tex for the first time ~~~\nrerun\n~~~ Running latex for the first time ~~~\nok line".data 12 "succeeded")
        ((scanLines (mkCtx "~~~ Running tex for the first time ~~~\nrerun\n~~~ Running latex for the first time ~~~\nok line".data 12 "succeeded")
          initState ["~~~ Running tex for the first time ~~~".data, "rerun".data,
            "~~~ Running latex for the first time ~~~".data]).getD initState)
        (htmlEscape "ok line".data)).getD initState)
      (htmlEscape "ok line".data) filters = some none ∧
    ((scanLines (mkCtx "~~~ Running tex for the first time ~~~\nrerun\n~~~ Running latex for the first time ~~~\nok line".data 12 "succeeded")
        initState
        ["~~~ Running tex for the first time ~~~".data, "rerun".data,
         "~~~ Running latex for the first time ~~~".data, "ok line".data]).getD initState).final_run_had_warnings
      = true ∧
    ((scanLines (mkCtx "~~~ Running tex for the first time ~~~\nrerun\n~~~ Running latex for the first time ~~~\nok line".data 12 "succeeded")
        initState
        ["~~~ Running tex for the first time ~~~".data, "rerun".data,
         "~~~ Running latex for the first time ~~~".data, "ok line".data]).getD initState).final_run_had_errors
      = false ∧
    ((scanLines (mkCtx "~~~ Running tex for the first time ~~~\nrerun\n~~~ Running latex for the first time ~~~\nok line".data 12 "succeeded")
        initState
        ["~~~ Running tex for the first time ~~~".data, "rerun".data,
         "~~~ Running latex for the first time ~~~".data, "ok line".data]).getD initState).xetex_luatex_abort
      = false ∧
    deriveStatus "succeeded" false false true
      = ("warning", "Succeeded with warnings. We recommend that you \n\t\tinspect the log (see below).") ∧
    statusLine "warning" "Succeeded with warnings. We recommend that you \n\t\tinspect the log (see below)."
      ≠ statusLine "success" "Succeeded!" := by
  refine ⟨by decide, by decide, by decide, by decide, by decide, by decide, by decide,
    by decide, by decide, by decide, by decide, by decide⟩

set_option maxRecDepth 400000 in
/-- Witness for C5's amended statement at a concrete clean transcript. -/
theorem c5_amended_witness :
    statusLine "success" "Succeeded!" <:+:
      ("If you are attempting to compile with a specific engine (PDFLaTeX, LaTeX, \nTeX) please carefully review the appropriate log below.\n\nSummary of TeX runs:\n\n\tRunning pdflatex for first time.\n\n\tLast run for engine pdflatex is first\n\nProcessing Status: <span class=\"tex-success\">Succeeded!</span>\n\n\n\n<b>Marked Up Log:</b>\n\n<span class=\"tex-info\">~~~ Running pdflatex for the first time ~~~</span>\n<span class=\"tex-success\">Successfully created PDF file:</span> x\n" : String).data :=
  c5_amended_success_status
    "~~~ Running pdflatex for the first time ~~~\nSuccessfully created PDF file: x" 3
    "If you are attempting to compile with a specific engine (PDFLaTeX, LaTeX, \nTeX) please carefully review the appropriate log below.\n\nSummary of TeX runs:\n\n\tRunning pdflatex for first time.\n\n\tLast run for engine pdflatex is first\n\nProcessing Status: <span class=\"tex-success\">Succeeded!</span>\n\n\n\n<b>Marked Up Log:</b>\n\n<span class=\"tex-info\">~~~ Running pdflatex for the first time ~~~</span>\n<span class=\"tex-success\">Successfully created PDF file:</span> x\n"
    (by decide) (by decide) (by decide)


/-! ## C6 -/

/-- `isPrefixOf` forces the length bound. -/
theorem isPrefixOf_length_le : ∀ (M t : List Char), M.isPrefixOf t = true → M.length ≤ t.length
  | [], _, _ => Nat.zero_le _
  | _ :: _, [], h => by simp [List.isPrefixOf] at h
  | m :: M1, c :: t1, h => by
      simp only [List.isPrefixOf, Bool.and_eq_true] at h
      simpa using Nat.succ_le_succ (isPrefixOf_length_le M1 t1 h.2)

/-- Appending after a list at least as long as the pattern does not
change `isPrefixOf`. -/
theorem isPrefixOf_append_of_le : ∀ (M t B : List Char), M.length ≤ t.length →
    M.isPrefixOf (t ++ B) = M.isPrefixOf t
  | [], _, _, _ => by simp [List.isPrefixOf]
  | _ :: _, [], _, h => by
      simp only [List.length_cons, List.length_nil] at h
      omega
  | m :: M1, c :: t1, B, h => by
      simp only [List.cons_append, List.append_eq, List.isPrefixOf]
      rw [isPrefixOf_append_of_le M1 t1 B (by simpa using h)]

/-- If the pattern runs past `t` into `B`, the first character of `B`
appears among the pattern characters after its head. -/
theorem head_mem_of_isPrefixOf_append :
    ∀ (t M B : List Char), t ≠ [] → t.length < M.length → M.isPrefixOf (t ++ B) = true →
      ∃ c, B.head? = some c ∧ c ∈ M.drop 1
  | [], _, _, ht, _, _ => absurd rfl ht
  | _ :: _, [], _, _, hl, _ => by
      simp only [List.length_cons, List.length_nil] at hl
      omega
  | [a], m :: M1, B, _, hl, h => by
      cases M1 with
      | nil =>
          simp only [List.length_cons, List.length_nil] at hl
          omega
      | cons m1 M2 =>
          simp only [List.cons_append, List.nil_append, List.isPrefixOf,
            Bool.and_eq_true, beq_iff_eq] at h
          cases B with
          | nil => exact absurd h.2 (by simp [List.isPrefixOf])
          | cons b B1 =>
              simp only [List.isPrefixOf, Bool.and_eq_true, beq_iff_eq] at h
              refine ⟨b, rfl, ?_⟩
              show b ∈ m1 :: M2
              rw [← h.2.1]
              exact List.mem_cons_self _ _
  | a :: d :: t2, m :: M1, B, _, hl, h => by
      simp only [List.cons_append, List.isPrefixOf, Bool.and_eq_true] at h
      have hl2 : (d :: t2).length < M1.length := by
        simp only [List.length_cons] at hl ⊢
        omega
      obtain ⟨c, hc, hm⟩ :=
        head_mem_of_isPrefixOf_append (d :: t2) M1 B (by simp) hl2 h.2
      refine ⟨c, hc, ?_⟩
      show c ∈ M1
      exact List.mem_of_mem_drop hm

/-- Occurrence counts add over an append when the right side cannot
continue a straddling match: its first character is not among the
pattern characters after the head. -/
theorem countOcc_append_sep : ∀ (M A B : List Char), M ≠ [] →
    (∀ c, B.head? = some c → c ∉ M.drop 1) →
    countOcc M (A ++ B) = countOcc M A + countOcc M B
  | M, [], B, hM, _ => by
      cases M with
      | nil => exact absurd rfl hM
      | cons m M1 => simp [countOcc]
  | M, a :: A1, B, hM, hB => by
      have ih := countOcc_append_sep M A1 B hM hB
      simp only [List.cons_append, countOcc, List.append_eq]
      rw [ih]
      have hEq : M.isPrefixOf (a :: (A1 ++ B)) = M.isPrefixOf (a :: A1) := by
        by_cases hlen : M.length ≤ (a :: A1).length
        · exact isPrefixOf_append_of_le M (a :: A1) B hlen
        · have h1 : M.isPrefixOf (a :: A1) = false := by
            cases hp : M.isPrefixOf (a :: A1) with
            | false => rfl
            | true => exact absurd (isPrefixOf_length_le M (a :: A1) hp) hlen
          have h2 : M.isPrefixOf (a :: (A1 ++ B)) = false := by
            cases hp : M.isPrefixOf (a :: (A1 ++ B)) with
            | false => rfl
            | true =>
                obtain ⟨c, hc, hm⟩ := head_mem_of_isPrefixOf_append (a :: A1) M B
                  (by simp) (Nat.not_le.mp hlen) hp
                exact absurd hm (hB c hc)
          rw [h1, h2]
      simp only [hEq]
      exact (Nat.add_assoc _ _ _).symm

/-- Occurrence counts add over an append when no nonempty proper prefix
of the pattern is a suffix of the left side. -/
theorem countOcc_append_free : ∀ (M A B : List Char), M ≠ [] →
    (∀ k, k < M.length → k = 0 ∨ ¬ (M.take k <:+ A)) →
    countOcc M (A ++ B) = countOcc M A + countOcc M B
  | M, [], B, hM, _ => by
      cases M with
      | nil => exact absurd rfl hM
      | cons m M1 => simp [countOcc]
  | M, a :: A1, B, hM, hA => by
      have hA1 : ∀ k, k < M.length → k = 0 ∨ ¬ (M.take k <:+ A1) := by
        intro k hk
        rcases hA k hk with h | h
        · exact Or.inl h
        · exact Or.inr fun hs => h (List.IsSuffix.trans hs (List.suffix_cons a A1))
      have ih := countOcc_append_free M A1 B hM hA1
      simp only [List.cons_append, countOcc, List.append_eq]
      rw [ih]
      have hEq : M.isPrefixOf (a :: (A1 ++ B)) = M.isPrefixOf (a :: A1) := by
        by_cases hlen : M.length ≤ (a :: A1).length
        · exact isPrefixOf_append_of_le M (a :: A1) B hlen
        · have h1 : M.isPrefixOf (a :: A1) = false := by
            cases hp : M.isPrefixOf (a :: A1) with
            | false => rfl
            | true => exact absurd (isPrefixOf_length_le M (a :: A1) hp) hlen
          have h2 : M.isPrefixOf (a :: (A1 ++ B)) = false := by
            cases hp : M.isPrefixOf (a :: (A1 ++ B)) with
            | false => rfl
            | true =>
                have hpre := List.isPrefixOf_iff_prefix.mp hp
                obtain ⟨r, hr⟩ := hpre
                have hle : (a :: A1).length ≤ M.length :=
                  Nat.le_of_lt (Nat.not_le.mp hlen)
                have h4 : (M ++ r).take (a :: A1).length = a :: A1 := by
                  rw [hr]
                  exact List.take_left (a :: A1) B
                have h5 : (M ++ r).take (a :: A1).length = M.take (a :: A1).length :=
                  List.take_eq_left_iff.mpr (Or.inr hle)
                have h6 : M.take (a :: A1).length = a :: A1 := by
                  rw [← h5]
                  exact h4
                rcases hA (a :: A1).length (Nat.not_le.mp hlen) with h0 | hns
                · simp at h0
                · exact absurd (by rw [h6]) hns
          rw [h1, h2]
      simp only [hEq]
      exact (Nat.add_assoc _ _ _).symm

/-- If the pattern head never occurs in `A`, no occurrence can start in
`A`. -/
theorem countOcc_append_head : ∀ (m0 : Char) (M1 A B : List Char), m0 ∉ A →
    countOcc (m0 :: M1) (A ++ B) = countOcc (m0 :: M1) B
  | _, _, [], _, _ => rfl
  | m0, M1, a :: A1, B, hm => by
      have ih := countOcc_append_head m0 M1 A1 B fun h => hm (List.mem_cons_of_mem a h)
      have hne : (m0 == a) = false :=
        beq_eq_false_iff_ne.mpr fun h => hm (List.mem_cons.mpr (Or.inl h))
      simp only [List.cons_append, countOcc, List.append_eq]
      rw [ih]
      have hp : (m0 :: M1).isPrefixOf (a :: (A1 ++ B)) = false := by
        simp [List.isPrefixOf, hne]
      simp only [hp]
      simp

/-- A cons whose head differs from the pattern head contributes no
occurrence. -/
theorem countOcc_cons_ne (m0 : Char) (M1 : List Char) (c : Char) (t : List Char)
    (hc : m0 ≠ c) : countOcc (m0 :: M1) (c :: t) = countOcc (m0 :: M1) t := by
  have hne : (m0 == c) = false := beq_eq_false_iff_ne.mpr hc
  have hp : (m0 :: M1).isPrefixOf (c :: t) = false := by
    simp [List.isPrefixOf, hne]
  have he : countOcc (m0 :: M1) (c :: t)
      = (if (m0 :: M1).isPrefixOf (c :: t) = true then 1 else 0)
        + countOcc (m0 :: M1) t := rfl
  rw [he, hp]
  simp

/-- `countOcc_append_head` specialised to the missing-font marker. -/
theorem countOcc_missfont_append_head (A B : List Char) (hA : '<' ∉ A) :
    countOcc missfontMarker (A ++ B) = countOcc missfontMarker B := by
  have hM : missfontMarker
      = '<' :: "li>A font required by your paper is not available.".data := rfl
  rw [hM]
  exact countOcc_append_head '<' _ A B hA

/-- `countOcc_cons_ne` specialised to the missing-font marker. -/
theorem countOcc_missfont_cons (c : Char) (t : List Char) (hc : c ≠ '<') :
    countOcc missfontMarker (c :: t) = countOcc missfontMarker t := by
  have hM : missfontMarker
      = '<' :: "li>A font required by your paper is not available.".data := rfl
  rw [hM]
  exact countOcc_cons_ne '<' _ c t fun h => hc h.symm

/-- Decimal digit characters are never `<`. -/
theorem digitChar_ne_lt : ∀ m, m < 10 → Nat.digitChar m ≠ '<' := by decide

/-- `Nat.toDigitsCore` only ever pushes digit characters. -/
theorem toDigitsCore_ne_lt : ∀ (f n : Nat) (ds : List Char), (∀ c ∈ ds, c ≠ '<') →
    ∀ c ∈ Nat.toDigitsCore 10 f n ds, c ≠ '<'
  | 0, n, ds, hds => by
      intro c hc
      simp only [Nat.toDigitsCore] at hc
      exact hds c hc
  | f + 1, n, ds, hds => by
      intro c hc
      simp only [Nat.toDigitsCore] at hc
      have hd : ∀ x ∈ (Nat.digitChar (n % 10) :: ds), x ≠ '<' := by
        intro x hx
        rcases List.mem_cons.mp hx with h | h
        · rw [h]
          exact digitChar_ne_lt (n % 10) (Nat.mod_lt _ (by omega))
        · exact hds x h
      by_cases hnz : n / 10 = 0
      · rw [if_pos hnz] at hc
        exact hd c hc
      · rw [if_neg hnz] at hc
        exact toDigitsCore_ne_lt f (n / 10) _ hd c hc

/-- The decimal rendering of an integer never contains `<`. -/
theorem intToString_no_lt (i : Int) : '<' ∉ (toString i).data := by
  cases i with
  | ofNat n =>
      have h : (toString (Int.ofNat n)).data = Nat.toDigitsCore 10 (n + 1) n [] := rfl
      rw [h]
      intro hmem
      exact toDigitsCore_ne_lt (n + 1) n [] (by intro c hc; simp at hc) '<' hmem rfl
  | negSucc n =>
      have h : (toString (Int.negSucc n)).data
          = '-' :: Nat.toDigitsCore 10 (n + 2) (n + 1) [] := rfl
      rw [h]
      intro hmem
      rcases List.mem_cons.mp hmem with h2 | h2
      · exact absurd h2 (by decide)
      · exact toDigitsCore_ne_lt (n + 2) (n + 1) [] (by intro c hc; simp at hc) '<' h2 rfl

/-- `html.escape` never emits a `<` for any input character. -/
theorem escChar_no_lt (a : Char) : '<' ∉ escChar a := by
  simp only [escChar]
  by_cases h1 : a = '&'
  · rw [if_pos h1]; decide
  · rw [if_neg h1]
    by_cases h2 : a = '<'
    · rw [if_pos h2]; decide
    · rw [if_neg h2]
      by_cases h3 : a = '>'
      · rw [if_pos h3]; decide
      · rw [if_neg h3]
        by_cases h4 : a = quoteChar
        · rw [if_pos h4]; decide
        · rw [if_neg h4]
          by_cases h5 : a = aposChar
          · rw [if_pos h5]; decide
          · rw [if_neg h5]
            simp only [List.mem_singleton]
            exact fun h => h2 h.symm

/-- An escaped line contains no `<` at all. -/
theorem htmlEscape_no_lt (s : List Char) : '<' ∉ htmlEscape s := by
  intro hmem
  simp only [htmlEscape] at hmem
  rw [List.mem_flatMap] at hmem
  obtain ⟨a, _, hc⟩ := hmem
  exact escChar_no_lt a hc

/-- `wrapOk` survives dropping the head. -/
theorem wrapOk_tail (c : Char) (t : List Char) (h : wrapOk (c :: t) = true) :
    wrapOk t = true := by
  by_cases hc : c = '<'
  · subst hc
    cases t with
    | nil => simp [wrapOk] at h
    | cons d t1 =>
        have hd : ((decide (d = 's') || decide (d = '/')) && wrapOk (d :: t1)) = true := h
        rw [Bool.and_eq_true] at hd
        exact hd.2
  · cases t with
    | nil => rfl
    | cons d t1 =>
        have he : wrapOk (c :: d :: t1) = wrapOk (d :: t1) := by
          simp only [wrapOk]
          rw [if_neg hc]
        rw [← he]
        exact h

/-- Prepending `<`-free text preserves `wrapOk`. -/
theorem wrapOk_append_no_lt : ∀ (A B : List Char), '<' ∉ A → wrapOk B = true →
    wrapOk (A ++ B) = true
  | [], _, _, hB => hB
  | a :: A1, B, hA, hB => by
      have ha : a ≠ '<' := by
        intro h
        exact hA (by rw [h]; exact List.mem_cons_self _ _)
      have ih := wrapOk_append_no_lt A1 B (fun h => hA (List.mem_cons_of_mem a h)) hB
      show wrapOk (a :: (A1 ++ B)) = true
      have he : wrapOk (a :: (A1 ++ B)) = wrapOk (A1 ++ B) := by
        simp only [wrapOk]
        rw [if_neg ha]
      rw [he]
      exact ih

/-- `<`-free text satisfies `wrapOk`. -/
theorem wrapOk_of_no_lt (A : List Char) (hA : '<' ∉ A) : wrapOk A = true := by
  have h := wrapOk_append_no_lt A [] hA rfl
  rwa [List.append_nil] at h

/-- An opening severity span in front of well-wrapped text is
well-wrapped (the level string never contains `<`). -/
theorem wrapOk_spanOpen_append (lvl : String) (B : List Char)
    (hlvl : '<' ∉ lvl.data) (hB : wrapOk B = true) :
    wrapOk (spanOpen lvl ++ B) = true := by
  have h0 : spanOpen lvl ++ B
      = '<' :: 's' :: ("pan class=\"tex-".data ++ (lvl.data ++ ("\">".data ++ B))) := by
    have h1 : spanOpen lvl
        = (('<' :: 's' :: "pan class=\"tex-".data) ++ lvl.data) ++ "\">".data := rfl
    rw [h1]
    simp [List.append_assoc]
  rw [h0]
  have h2 : wrapOk ('<' :: 's' ::
        ("pan class=\"tex-".data ++ (lvl.data ++ ("\">".data ++ B))))
      = wrapOk ("pan class=\"tex-".data ++ (lvl.data ++ ("\">".data ++ B))) := rfl
  rw [h2]
  exact wrapOk_append_no_lt _ _ (by decide)
    (wrapOk_append_no_lt _ _ hlvl (wrapOk_append_no_lt _ _ (by decide) hB))

/-- A closing span in front of well-wrapped text is well-wrapped. -/
theorem wrapOk_spanClose_append (B : List Char) (hB : wrapOk B = true) :
    wrapOk (spanClose ++ B) = true := by
  have h0 : spanClose ++ B = '<' :: '/' :: ("span>".data ++ B) := rfl
  rw [h0]
  have h2 : wrapOk ('<' :: '/' :: ("span>".data ++ B))
      = wrapOk ("span>".data ++ B) := rfl
  rw [h2]
  exact wrapOk_append_no_lt _ _ (by decide) hB

/-- The span-wrapping substitution always produces well-wrapped text
from `<`-free input. -/
theorem wrapOk_subAllAux (pat : RE) (lvl : String) (hlvl : '<' ∉ lvl.data) :
    ∀ (fuel : Nat) (s : List Char), '<' ∉ s →
      wrapOk (subAllAux true pat (spanOpen lvl) spanClose fuel s) = true := by
  intro fuel
  induction fuel with
  | zero => intro s hs; exact wrapOk_of_no_lt s hs
  | succ fuel ih =>
      intro s hs
      rcases hsr : reSearch true pat s with _ | ⟨i, l, caps⟩
      · simp only [subAllAux, hsr]
        exact wrapOk_of_no_lt s hs
      · simp only [subAllAux, hsr]
        by_cases hl : l = 0
        · rw [if_pos hl]
          exact wrapOk_of_no_lt s hs
        · rw [if_neg hl]
          have hrec := ih (s.drop (i + l)) fun h => hs (List.drop_subset _ _ h)
          have h1 : s.take i ++ spanOpen lvl ++ (s.drop i).take l ++ spanClose ++
                subAllAux true pat (spanOpen lvl) spanClose fuel (s.drop (i + l))
              = s.take i ++ (spanOpen lvl ++ ((s.drop i).take l ++ (spanClose ++
                  subAllAux true pat (spanOpen lvl) spanClose fuel (s.drop (i + l))))) := by
            simp [List.append_assoc]
          rw [h1]
          exact wrapOk_append_no_lt _ _ (fun h => hs (List.take_subset _ _ h))
            (wrapOk_spanOpen_append lvl _ hlvl
              (wrapOk_append_no_lt _ _
                (fun h => hs (List.drop_subset _ _ (List.take_subset _ _ h)))
                (wrapOk_spanClose_append _ hrec)))

/-- No filter level contains `<`. -/
theorem effLevel_no_lt : ∀ f ∈ filters, '<' ∉ (effLevel f).data := by decide

/-- An annotated escaped line is well-wrapped: every `<` it contains is
the start of a span tag inserted by the annotator. -/
theorem wrapOk_annotateLine (f : MarkupFilter) (hf : '<' ∉ (effLevel f).data)
    (raw : List Char) : wrapOk (annotateLine f (htmlEscape raw)) = true := by
  simp only [annotateLine, subAll]
  exact wrapOk_subAllAux f.pat (effLevel f) hf _ _ (htmlEscape_no_lt raw)

set_option maxRecDepth 40000 in
/-- Well-wrapped text never contains the missing-font marker. -/
theorem countOcc_wrapOk_zero : ∀ (s : List Char), wrapOk s = true →
    countOcc missfontMarker s = 0
  | [], _ => by decide
  | c :: t, h => by
      have ih := countOcc_wrapOk_zero t (wrapOk_tail c t h)
      by_cases hc : c = '<'
      · subst hc
        cases t with
        | nil => decide
        | cons d t1 =>
            have hd : ((decide (d = 's') || decide (d = '/')) && wrapOk (d :: t1)) = true := h
            rw [Bool.and_eq_true] at hd
            have hdd : d = 's' ∨ d = '/' := by
              have ho := hd.1
              rw [Bool.or_eq_true] at ho
              rcases ho with h1 | h1
              · exact Or.inl (of_decide_eq_true h1)
              · exact Or.inr (of_decide_eq_true h1)
            have hp : missfontMarker.isPrefixOf ('<' :: d :: t1) = false := by
              rcases hdd with h1 | h1 <;> subst h1 <;> rfl
            have he : countOcc missfontMarker ('<' :: d :: t1)
                = (if missfontMarker.isPrefixOf ('<' :: d :: t1) = true then 1 else 0)
                  + countOcc missfontMarker (d :: t1) := rfl
            rw [he, hp]
            simpa using ih
      · rw [countOcc_missfont_cons c t hc]
        exact ih

set_option maxRecDepth 100000 in
/-- The rerun entry contains no missing-font marker. -/
theorem countOcc_rerunEntry : countOcc missfontMarker rerunEntry = 0 := by decide

set_option maxRecDepth 100000 in
/-- The emergency-stop entry contains no missing-font marker. -/
theorem countOcc_emergencyEntry : countOcc missfontMarker emergencyEntry = 0 := by decide

set_option maxRecDepth 100000 in
/-- The error-summary header contains no missing-font marker. -/
theorem countOcc_initES : countOcc missfontMarker initialize_error_summary = 0 := by decide

set_option maxRecDepth 100000 in
/-- The abort entry contains no missing-font marker, for every
submission id. -/
theorem countOcc_abortEntry (sid : Int) :
    countOcc missfontMarker (abortEntry sid) = 0 := by
  have h0 : abortEntry sid
      = "\t<li>At the current time arXiv does not support XeTeX/LuaTeX.\n\n\tIf you believe that your submission requires a compilation method \n\tunsupported by arXiv, please contact <span class=\"tex-help\">help@arxiv.org</span> for \n\tmore information and provide us with this submit/".data
        ++ ((toString sid).data ++ " identifier.</li>".data) := by
    have h1 : abortEntry sid
        = ("\t<li>At the current time arXiv does not support XeTeX/LuaTeX.\n\n\tIf you believe that your submission requires a compilation method \n\tunsupported by arXiv, please contact <span class=\"tex-help\">help@arxiv.org</span> for \n\tmore information and provide us with this submit/".data
            ++ (toString sid).data) ++ " identifier.</li>".data := rfl
    rw [h1, List.append_assoc]
  rw [h0]
  rw [countOcc_append_free missfontMarker _ _ (by decide) (by decide)]
  rw [countOcc_missfont_append_head _ _ (intToString_no_lt sid)]
  decide

set_option maxRecDepth 100000 in
/-- The missing-font entry contains the marker exactly once, for every
submission id. -/
theorem countOcc_missfontEntry (sid : Int) :
    countOcc missfontMarker (missfontEntry sid) = 1 := by
  have h0 : missfontEntry sid
      = "\t<li>A font required by your paper is not available. You may try to \n\tinclude a non-standard font or substitue an alternative font. \n\tSee <span class=\"tex-help\"><a href=\"https://arxiv.org/help/00README#fontmap\">Custom Fontmaps</a></span>. If this is due to a problem with \n\tour system, please contact <span class=\"tex-help\">help@arxiv.org</span> with details \n\tand provide us with this submission identifier: submit/".data
        ++ ((toString sid).data ++ ".</li>".data) := by
    have h1 : missfontEntry sid
        = ("\t<li>A font required by your paper is not available. You may try to \n\tinclude a non-standard font or substitue an alternative font. \n\tSee <span class=\"tex-help\"><a href=\"https://arxiv.org/help/00README#fontmap\">Custom Fontmaps</a></span>. If this is due to a problem with \n\tour system, please contact <span class=\"tex-help\">help@arxiv.org</span> with details \n\tand provide us with this submission identifier: submit/".data
            ++ (toString sid).data) ++ ".</li>".data := rfl
    rw [h1, List.append_assoc]
  rw [h0]
  rw [countOcc_append_free missfontMarker _ _ (by decide) (by decide)]
  rw [countOcc_missfont_append_head _ _ (intToString_no_lt sid)]
  decide

set_option maxRecDepth 100000 in
/-- The missing-file entry contains no missing-font marker whenever the
embedded line is well-wrapped. -/
theorem countOcc_missingFileEntry (line : List Char) (h : wrapOk line = true) :
    countOcc missfontMarker (missingFileEntry line) = 0 := by
  have h0 : missingFileEntry line
      = "<li>\tA file required by your submission was not found.\n\t".data
        ++ (line ++ "\n\tPlease upload any missing files, or correct any file naming issues, and then reprocess your submission.</li>".data) := by
    have h1 : missingFileEntry line
        = ("<li>\tA file required by your submission was not found.\n\t".data ++ line)
          ++ "\n\tPlease upload any missing files, or correct any file naming issues, and then reprocess your submission.</li>".data := rfl
    rw [h1, List.append_assoc]
  rw [h0]
  rw [countOcc_append_free missfontMarker _ _ (by decide) (by decide)]
  rw [countOcc_append_sep missfontMarker line _ (by decide) ?hsep]
  case hsep =>
    intro c hc
    have h2 : some '\n' = some c := hc
    injection h2 with h3
    rw [← h3]
    decide
  rw [countOcc_wrapOk_zero line h]
  decide

set_option maxRecDepth 100000 in
/-- Appending an error-summary entry adds exactly the entry's own marker
occurrences. -/
theorem countOcc_esAppend (es entry : List Char) :
    countOcc missfontMarker (esAppend es entry)
      = countOcc missfontMarker es + countOcc missfontMarker entry := by
  by_cases hes : es = []
  · subst hes
    show countOcc missfontMarker (initialize_error_summary ++ entry) = _
    rw [countOcc_append_free missfontMarker _ _ (by decide) (by decide), countOcc_initES]
    have h2 : countOcc missfontMarker ([] : List Char) = 0 := by decide
    rw [h2]
  · unfold esAppend
    rw [if_neg hes]
    have h1 : (es ++ "\n".data) ++ entry = es ++ ('\n' :: entry) := by
      rw [List.append_assoc]
      rfl
    rw [h1]
    rw [countOcc_append_sep missfontMarker es ('\n' :: entry) (by decide) ?hsep2]
    case hsep2 =>
      intro c hc
      have h2 : some '\n' = some c := hc
      injection h2 with h3
      rw [← h3]
      decide
    rw [countOcc_missfont_cons '\n' entry (by decide)]

/-- The fired filter always comes from the filter list. -/
theorem firedFilter_mem (ctx : Ctx) (st : ScanState) (line : List Char) :
    ∀ (fs : List MarkupFilter) (f : MarkupFilter),
      firedFilter ctx st line fs = some (some f) → f ∈ fs
  | [], f, h => by simp [firedFilter] at h
  | f0 :: fs1, f, h => by
      simp only [firedFilter] at h
      split at h
      · exact List.mem_cons_of_mem f0 (firedFilter_mem ctx st line fs1 f h)
      · split at h
        · exact absurd h (by simp)
        · exact List.mem_cons_of_mem f0 (firedFilter_mem ctx st line fs1 f h)
        · split at h
          · injection h with h2
            injection h2 with h3
            rw [← h3]
            exact List.mem_cons_self _ _
          · exact List.mem_cons_of_mem f0 (firedFilter_mem ctx st line fs1 f h)

/-- One scan step preserves the missing-font book-keeping: the error
summary holds the missing-font entry once when the latch is set and
never otherwise. -/
theorem stepLine_missfont_inv (ctx : Ctx) (st : ScanState) (raw : List Char)
    (st' : ScanState) (h : stepLine ctx st raw = some st')
    (hP : countOcc missfontMarker st.error_summary
      = if st.missing_font_markup = true then 1 else 0) :
    countOcc missfontMarker st'.error_summary
      = if st'.missing_font_markup = true then 1 else 0 := by
  obtain ⟨st1, hb, hrest⟩ := stepLine_cases ctx st raw st' h
  have hfr := bannerPhase_frame ctx st _ st1 hb
  have hP1 : countOcc missfontMarker st1.error_summary
      = if st1.missing_font_markup = true then 1 else 0 := by
    rw [hfr.2.1, hfr.2.2.2.2.2.2.1]
    exact hP
  rcases hrest with ⟨_, rfl⟩ | ⟨_, hf⟩
  · exact hP1
  · rcases filterPhase_cases ctx st1 _ st' hf with ⟨f, hfired, rfl⟩ | ⟨_, rfl⟩
    · have hfmem : f ∈ filters := firedFilter_mem ctx st1 (htmlEscape raw) filters f hfired
      have hwrap : wrapOk (annotateLine f (htmlEscape raw)) = true :=
        wrapOk_annotateLine f (effLevel_no_lt f hfmem) raw
      refine applyEffects_pres ctx (htmlEscape raw) f
        (fun s => countOcc missfontMarker s.error_summary
          = if s.missing_font_markup = true then 1 else 0) ?_ ?_ ?_ ?_ ?_ ?_ ?_ st1 hP1
      · intro s hs
        rcases successFlagsUpdate_cases ctx s (effLevel f)
          with hq | ⟨_, _, _, ⟨_, hq⟩ | ⟨_, hq⟩⟩ <;> rw [hq] <;> exact hs
      · intro s hs
        rcases abortHandler_cases ctx s f (annotateLine f (htmlEscape raw))
          with hq | ⟨_, _, hq⟩
        · rw [hq]; exact hs
        · rw [hq]
          show countOcc missfontMarker
              (esAppend s.error_summary (abortEntry ctx.submission_id))
            = if s.missing_font_markup = true then 1 else 0
          rw [countOcc_esAppend, countOcc_abortEntry]
          simpa using hs
      · intro s hs
        rcases missfontHandler_cases ctx s (effLevel f) (annotateLine f (htmlEscape raw))
          with hq | ⟨hlatch, _, _, hq⟩
        · rw [hq]; exact hs
        · rw [hq]
          show countOcc missfontMarker
              (esAppend s.error_summary (missfontEntry ctx.submission_id)) = 1
          rw [countOcc_esAppend, countOcc_missfontEntry]
          rw [hlatch] at hs
          simp only [Bool.false_eq_true, if_false] at hs
          omega
      · intro s hs
        rcases rerunHandler_cases s (effLevel f) (annotateLine f (htmlEscape raw))
          with hq | ⟨_, _, _, _, _, hq⟩
        · rw [hq]; exact hs
        · rw [hq]
          show countOcc missfontMarker (esAppend s.error_summary rerunEntry)
            = if s.missing_font_markup = true then 1 else 0
          rw [countOcc_esAppend, countOcc_rerunEntry]
          simpa using hs
      · intro s hs
        rcases missingFileHandler_cases s (effLevel f) (annotateLine f (htmlEscape raw))
          with hq | ⟨_, _, _, hq⟩
        · rw [hq]; exact hs
        · rw [hq]
          show countOcc missfontMarker
              (esAppend s.error_summary
                (missingFileEntry (annotateLine f (htmlEscape raw))))
            = if s.missing_font_markup = true then 1 else 0
          rw [countOcc_esAppend, countOcc_missingFileEntry _ hwrap]
          simpa using hs
      · intro s hs
        rcases emergencyHandler_cases s (effLevel f) (annotateLine f (htmlEscape raw))
          with hq | ⟨_, _, _, hq⟩
        · rw [hq]; exact hs
        · rw [hq]
          show countOcc missfontMarker (esAppend s.error_summary emergencyEntry)
            = if s.missing_font_markup = true then 1 else 0
          rw [countOcc_esAppend, countOcc_emergencyEntry]
          simpa using hs
      · intro s nl hs
        exact hs
    · exact hP1

/-- One scan step never clears the missing-font latch. -/
theorem stepLine_missfont_mono (ctx : Ctx) (st : ScanState) (raw : List Char)
    (st' : ScanState) (h : stepLine ctx st raw = some st')
    (hm : st.missing_font_markup = true) : st'.missing_font_markup = true := by
  obtain ⟨st1, hb, hrest⟩ := stepLine_cases ctx st raw st' h
  have hfr := bannerPhase_frame ctx st _ st1 hb
  have hm1 : st1.missing_font_markup = true := hfr.2.2.2.2.2.2.1 ▸ hm
  rcases hrest with ⟨_, rfl⟩ | ⟨_, hf⟩
  · exact hm1
  · rcases filterPhase_cases ctx st1 _ st' hf with ⟨f, _, rfl⟩ | ⟨_, rfl⟩
    · refine applyEffects_pres ctx (htmlEscape raw) f
        (fun s => s.missing_font_markup = true) ?_ ?_ ?_ ?_ ?_ ?_ ?_ st1 hm1
      · intro s hs
        rcases successFlagsUpdate_cases ctx s (effLevel f)
          with hq | ⟨_, _, _, ⟨_, hq⟩ | ⟨_, hq⟩⟩ <;> rw [hq] <;> exact hs
      · intro s hs
        rcases abortHandler_cases ctx s f (annotateLine f (htmlEscape raw))
          with hq | ⟨_, _, hq⟩ <;> rw [hq] <;> exact hs
      · intro s hs
        rcases missfontHandler_cases ctx s (effLevel f) (annotateLine f (htmlEscape raw))
          with hq | ⟨_, _, _, hq⟩ <;> rw [hq] <;> exact hs
      · intro s hs
        rcases rerunHandler_cases s (effLevel f) (annotateLine f (htmlEscape raw))
          with hq | ⟨_, _, _, _, _, hq⟩ <;> rw [hq] <;> exact hs
      · intro s hs
        rcases missingFileHandler_cases s (effLevel f) (annotateLine f (htmlEscape raw))
          with hq | ⟨_, _, _, hq⟩ <;> rw [hq] <;> exact hs
      · intro s hs
        rcases emergencyHandler_cases s (effLevel f) (annotateLine f (htmlEscape raw))
          with hq | ⟨_, _, _, hq⟩ <;> rw [hq] <;> exact hs
      · intro s nl hs
        exact hs
    · exact hm1

/-- The whole scan preserves the missing-font book-keeping and the latch
monotonicity. -/
theorem scanLines_missfont_inv (ctx : Ctx) :
    ∀ (lines : List (List Char)) (st stF : ScanState),
      scanLines ctx st lines = some stF →
      (((countOcc missfontMarker st.error_summary
          = (if st.missing_font_markup = true then 1 else 0)) →
        (countOcc missfontMarker stF.error_summary
          = (if stF.missing_font_markup = true then 1 else 0)))
      ∧ (st.missing_font_markup = true → stF.missing_font_markup = true)) := by
  intro lines
  induction lines with
  | nil =>
      intro st stF h
      simp only [scanLines] at h
      cases h
      exact ⟨id, id⟩
  | cons l ls ih =>
      intro st stF h
      simp only [scanLines] at h
      rcases hs : stepLine ctx st l with _ | st1
      · rw [hs] at h; cases h
      · rw [hs] at h
        obtain ⟨ih1, ih2⟩ := ih st1 stF h
        exact ⟨fun hP => ih1 (stepLine_missfont_inv ctx st l st1 hs hP),
               fun hm => ih2 (stepLine_missfont_mono ctx st l st1 hs hm)⟩

/-- C6 amended: however the scan is split into a prefix and a
continuation, the final error summary contains the missing-font entry
exactly once if the missing-font latch ends set and not at all
otherwise, and a latch set after the prefix is never reset by the
continuation — so the entry is never duplicated however often the
pattern recurs.  (The converse direction of the claim fails: the pattern
occurring does not imply the entry appears; see the counterexample.) -/
theorem c6_amended_missfont_once (ctx : Ctx) (lines extra : List (List Char))
    (st stF : ScanState)
    (h1 : scanLines ctx initState lines = some st)
    (h2 : scanLines ctx st extra = some stF) :
    (countOcc missfontMarker stF.error_summary
      = if stF.missing_font_markup = true then 1 else 0)
    ∧ (st.missing_font_markup = true → stF.missing_font_markup = true) := by
  have h0 : countOcc missfontMarker initState.error_summary
      = if initState.missing_font_markup = true then 1 else 0 := by decide
  obtain ⟨p1, _⟩ := scanLines_missfont_inv ctx lines initState st h1
  obtain ⟨q1, q2⟩ := scanLines_missfont_inv ctx extra st stF h2
  exact ⟨q1 (p1 h0), q2⟩

set_option maxRecDepth 1000000 in
/-- Witness for C6's amended statement: two lines each firing the
missing-font fatal filter yield exactly one entry and the latch set by
the first line survives the second. -/
theorem c6_amended_witness :
    (countOcc missfontMarker
        ((scanLines (mkCtx "AutoTeX returned error: missfont.log present.\nAutoTeX returned error: missfont.log present.".data 7 "failed")
            ((scanLines (mkCtx "AutoTeX returned error: missfont.log present.\nAutoTeX returned error: missfont.log present.".data 7 "failed")
                initState ["AutoTeX returned error: missfont.log present.".data]).getD initState)
            ["AutoTeX returned error: missfont.log present.".data]).getD initState).error_summary
      = if ((scanLines (mkCtx "AutoTeX returned error: missfont.log present.\nAutoTeX returned error: missfont.log present.".data 7 "failed")
            ((scanLines (mkCtx "AutoTeX returned error: missfont.log present.\nAutoTeX returned error: missfont.log present.".data 7 "failed")
                initState ["AutoTeX returned error: missfont.log present.".data]).getD initState)
            ["AutoTeX returned error: missfont.log present.".data]).getD initState).missing_font_markup = true
        then 1 else 0)
    ∧ (((scanLines (mkCtx "AutoTeX returned error: missfont.log present.\nAutoTeX returned error: missfont.log present.".data 7 "failed")
            initState ["AutoTeX returned error: missfont.log present.".data]).getD initState).missing_font_markup = true →
        ((scanLines (mkCtx "AutoTeX returned error: missfont.log present.\nAutoTeX returned error: missfont.log present.".data 7 "failed")
            ((scanLines (mkCtx "AutoTeX returned error: missfont.log present.\nAutoTeX returned error: missfont.log present.".data 7 "failed")
                initState ["AutoTeX returned error: missfont.log present.".data]).getD initState)
            ["AutoTeX returned error: missfont.log present.".data]).getD initState).missing_font_markup = true) :=
  c6_amended_missfont_once
    (mkCtx "AutoTeX returned error: missfont.log present.\nAutoTeX returned error: missfont.log present.".data 7 "failed")
    ["AutoTeX returned error: missfont.log present.".data]
    ["AutoTeX returned error: missfont.log present.".data]
    ((scanLines (mkCtx "AutoTeX returned error: missfont.log present.\nAutoTeX returned error: missfont.log present.".data 7 "failed")
        initState ["AutoTeX returned error: missfont.log present.".data]).getD initState)
    ((scanLines (mkCtx "AutoTeX returned error: missfont.log present.\nAutoTeX returned error: missfont.log present.".data 7 "failed")
        ((scanLines (mkCtx "AutoTeX returned error: missfont.log present.\nAutoTeX returned error: missfont.log present.".data 7 "failed")
            initState ["AutoTeX returned error: missfont.log present.".data]).getD initState)
        ["AutoTeX returned error: missfont.log present.".data]).getD initState)
    (by decide) (by decide)

set_option maxRecDepth 1000000 in
/-- C6 counterexample: the transcript consists of the line
`missfont.log present` (status `failed`), so the missfont pattern occurs
in the input, yet the output contains NO missing-font entry: the fatal
filter pattern `.*missfont.log present.` requires a character after
`present`, no filter fires, the handler is never reached. -/
theorem c6_counterexample :
    ("missfont.log present".data <:+: "missfont.log present".data) ∧
    compilation_log_display "missfont.log present" 5 "failed"
      = some "If you are attempting to compile with a specific engine (PDFLaTeX, LaTeX, \nTeX) please carefully review the appropriate log below.\n\nSummary of TeX runs:\n\n\n\nProcessing Status: <span class=\"tex-fatal\">Failed</span>\n\n\n\n<b>Marked Up Log:</b>\n\nmissfont.log present\n" ∧
    countOcc missfontMarker "If you are attempting to compile with a specific engine (PDFLaTeX, LaTeX, \nTeX) please carefully review the appropriate log below.\n\nSummary of TeX runs:\n\n\n\nProcessing Status: <span class=\"tex-fatal\">Failed</span>\n\n\n\n<b>Marked Up Log:</b>\n\nmissfont.log present\n".data = 0 := by
  refine ⟨by decide, by decide, by decide⟩


end TexFilters
